import Mathlib

/-!
# jagged: the native object bridge (`src/main/native/libjagged/object.c`)

A shallow embedding of the JNI bridge functions of `object.c` and theorems about
them.

The C functions talk to three collaborators that are not part of the file:
the Java runtime (`FindClass`, `GetMethodID`, `CallObjectMethod`, `NewObject`,
`NewObjectArray`), the helpers of `util.h`, `oid.h` and `repository.h`, and the
native object store (libgit2).  Everything a collaborator decides is a field of
`Env`; a fallible collaborator is asked with the number of collaborator calls
made so far (`World.tick`), so the same request may succeed once and fail
later.  What the bridge does to the outside is recorded in `World`:
exceptions signalled, native handles acquired and released, managed objects
requested from `NewObject`, and the number of times the wrapper factory ran.

Conventions of the embedding:

* a C function `f(env, args)` becomes `f env args w`, returning its result and
  the world after the call; a `NULL` result is `none`;
* a store function returning a status code and an output handle becomes an
  `Except Int git_object`: `error c` is a negative code with the output
  variable left unwritten, `ok o` is code 0 with the handle written;
* `goto done` is the return of the result variable after the releases written
  at the label `done`;
* pointers checked by `assert` at entry are arguments that cannot be null;
  the failed `assert(entry_idx >= 0)` is an outer `none`;
* `size_t` and `jlong` have 64 bits, `unsigned int` and `jsize` have 32 bits.
-/

namespace Jagged

/-! ## Data model -/

/-- Object identifier (`git_oid`), kept abstract as a number. -/
abbrev git_oid := Nat

/-- Native repository handle (`git_repository *`). -/
abbrev git_repository := Nat

/-- Value of `GIT_OBJ_COMMIT` in the `git_otype` enumeration of git2. -/
def GIT_OBJ_COMMIT : Int := 1

/-- Value of `GIT_OBJ_TREE` in the `git_otype` enumeration of git2. -/
def GIT_OBJ_TREE : Int := 2

def GIT_JAVA_CLASS_COMMIT : String := "org/libgit2/jagged/Commit"

def GIT_JAVA_CLASS_TREE : String := "org/libgit2/jagged/Tree"

/-- Largest value of a signed 64-bit integer. -/
def INT64_MAX : Nat := 2 ^ 63 - 1

/-- Number of values of `size_t` (64-bit words). -/
def SIZE_RANGE : Nat := 2 ^ 64

/-- Number of values of `unsigned int`. -/
def UINT_RANGE : Nat := 2 ^ 32

/-- A resolved native object (`git_object *`, also seen through the casts to
`git_commit *` and `git_tree *`): the address of the handle, the type tag the
store reports for it and its identifier.  The other facets are read through
the readers of `Env`. -/
structure git_object where
  handle : Nat
  type : Int
  id : git_oid
deriving DecidableEq, Repr

/-- Native signature (`git_signature`): the two texts the bridge reads. -/
structure git_signature where
  name : String
  email : String
deriving DecidableEq, Repr

/-- Native tree entry (`git_tree_entry`). -/
structure git_tree_entry where
  name : String
  id : git_oid
  type : Int
  filemode : Int
deriving DecidableEq, Repr

/-- Managed values the bridge hands to, or receives from, the Java side. -/
inductive jobject where
  /-- a reference supplied by the caller (a Repository, a GitObject, an ObjectId) -/
  | ref (n : Nat)
  /-- a `jstring` holding the given text -/
  | string (s : String)
  /-- an ObjectId made by the identifier codec from native bytes -/
  | objectId (oid : git_oid)
  /-- a primitive `int` argument -/
  | jint (i : Int)
  /-- an object built by `NewObject`: its class and the constructor arguments -/
  | object (cls : String) (args : List jobject)

/-- A `jobjectArray`: element class and the slots, `none` for a null slot. -/
structure jobjectArray where
  cls : String
  elems : List (Option jobject)

/-- A class reference (`jclass`), identified by the class name. -/
abbrev jclass := String

/-- A method reference (`jmethodID`). -/
structure jmethodID where
  cls : jclass
  name : String
  sig : String
deriving DecidableEq, Repr

/-- Exceptions made pending on the Java side. -/
inductive JThrowable where
  /-- raised by `git_java_exception_throw_giterr` for a store error code -/
  | giterr (code : Int)
  /-- raised by `git_java_exception_throw` with a format and its argument -/
  | message (fmt : String) (arg : Option Int)
  /-- raised by a collaborator (class lookup, allocation, codec, ...) -/
  | collaborator (tag : Nat)
deriving DecidableEq, Repr

/-- Answer of a fallible collaborator: a value, or a failure together with the
exception it left pending, if any. -/
inductive Outcome (α : Type) where
  | ok (a : α)
  | fail (thrown : Option JThrowable)

/-- The collaborators.  Fallible ones take the tick of the call first. -/
structure Env where
  git_java_handle_get : Nat → jobject → Outcome git_repository
  FindClass : Nat → String → Outcome Unit
  GetMethodID : Nat → jclass → String → String → Outcome Unit
  /-- `ok none` is a method that returned `null` without raising -/
  CallObjectMethod : Nat → jobject → jmethodID → Outcome (Option jobject)
  NewObject : Nat → jclass → jmethodID → List jobject → Outcome Unit
  NewObjectArray : Nat → Nat → jclass → Outcome Unit
  git_java_objectid_tonative : Nat → jobject → Outcome git_oid
  git_java_objectid_init : Nat → git_oid → Outcome Unit
  git_java_utf8_to_jstring : Nat → String → Outcome Unit
  /-- `error c` is a negative return code with the output handle unwritten -/
  git_object_lookup : Nat → git_repository → git_oid → Int → Except Int git_object
  git_commit_parent : Nat → git_object → Nat → Except Int git_object
  git_commit_tree : Nat → git_object → Except Int git_object
  git_commit_parentcount : git_object → Nat
  git_commit_committer : git_object → git_signature
  git_commit_author : git_object → git_signature
  git_tree_entrycount : git_object → Nat
  git_tree_entry_byindex : git_object → Nat → Option git_tree_entry

/-- What a call has done to the outside so far. -/
structure World where
  /-- number of collaborator calls made -/
  tick : Nat
  /-- exceptions signalled, oldest first -/
  thrown : List JThrowable
  /-- native handles acquired from the store, oldest first -/
  acquired : List Nat
  /-- native handles released, oldest first -/
  released : List Nat
  /-- `NewObject` requests: class and arguments, oldest first -/
  constructions : List (jclass × List jobject)
  /-- number of runs of the wrapper factory `git_java_object_init` -/
  initCalls : Nat

/-- The world before a call. -/
def World.start : World :=
  { tick := 0, thrown := [], acquired := [], released := [], constructions := [], initCalls := 0 }

/-- One more collaborator call has been made. -/
def World.step (w : World) : World := { w with tick := w.tick + 1 }

/-- An exception becomes pending. -/
def World.raise (w : World) (e : JThrowable) : World := { w with thrown := w.thrown ++ [e] }

/-- A failing collaborator leaves its exception, if it raised one. -/
def World.raiseOpt (w : World) : Option JThrowable → World
  | none => w
  | some e => w.raise e

/-- Ask a fallible collaborator: `none` stands for its failure value (`NULL`
or a negative code). -/
def ask {α : Type} (o : Outcome α) (w : World) : Option α × World :=
  match o with
  | .ok a => (some a, w.step)
  | .fail e => (none, w.step.raiseOpt e)

/-- Ask the store for a handle: success records the acquisition. -/
def acquire (r : Except Int git_object) (w : World) : Except Int git_object × World :=
  match r with
  | .ok o => (.ok o, { w.step with acquired := w.acquired ++ [o.handle] })
  | .error c => (.error c, w.step)

/-! ## Helpers of `util.h` and `oid.h`, the store readers and the JNI calls -/

/-- Modelled from the spec: `git_java_exception_throw_giterr` of `util.h`, the
error translator for a store status code; it makes an exception carrying the
code pending. -/
def git_java_exception_throw_giterr (error : Int) (w : World) : World :=
  w.raise (.giterr error)

/-- Modelled from the spec: `git_java_exception_throw` of `util.h`, the
error translator for a failure found by the bridge itself; it makes an
exception with the formatted message pending. -/
def git_java_exception_throw (fmt : String) (arg : Option Int) (w : World) : World :=
  w.raise (.message fmt arg)

/-- Modelled from the spec: `git_object_free` of the store (also
`git_commit_free`, `git_tree_free`); a null handle is ignored. -/
def git_object_free (o : Option git_object) (w : World) : World :=
  match o with
  | none => w
  | some x => { w with released := w.released ++ [x.handle] }

def git_object_type (o : git_object) : Int := o.type

def git_commit_id (o : git_object) : git_oid := o.id

def git_tree_id (o : git_object) : git_oid := o.id

/-- Modelled from the spec: `git_java_objectid_init` of `oid.h`, the encoder
of the identifier codec; on success the managed ObjectId wraps the bytes. -/
def git_java_objectid_init (env : Env) (oid : git_oid) (w : World) : Option jobject × World :=
  match ask (env.git_java_objectid_init w.tick oid) w with
  | (some _, w1) => (some (.objectId oid), w1)
  | (none, w1) => (none, w1)

/-- Modelled from the spec: `git_java_utf8_to_jstring` of `util.h`; on success
the managed string holds the text. -/
def git_java_utf8_to_jstring (env : Env) (s : String) (w : World) : Option jobject × World :=
  match ask (env.git_java_utf8_to_jstring w.tick s) w with
  | (some _, w1) => (some (.string s), w1)
  | (none, w1) => (none, w1)

/-- JNI `FindClass`. -/
def FindClass (env : Env) (name : String) (w : World) : Option jclass × World :=
  match ask (env.FindClass w.tick name) w with
  | (some _, w1) => (some name, w1)
  | (none, w1) => (none, w1)

/-- JNI `GetMethodID`. -/
def GetMethodID (env : Env) (cls : jclass) (name sig : String) (w : World) :
    Option jmethodID × World :=
  match ask (env.GetMethodID w.tick cls name sig) w with
  | (some _, w1) => (some { cls := cls, name := name, sig := sig }, w1)
  | (none, w1) => (none, w1)

/-- JNI `NewObject`: the request is recorded; on success the new object has the
class and the constructor arguments. -/
def NewObject (env : Env) (cls : jclass) (m : jmethodID) (args : List jobject) (w : World) :
    Option jobject × World :=
  let w0 := { w with constructions := w.constructions ++ [(cls, args)] }
  match ask (env.NewObject w.tick cls m args) w0 with
  | (some _, w1) => (some (.object cls args), w1)
  | (none, w1) => (none, w1)

/-- Conversion of an `unsigned int` to `jsize` (a signed 32-bit integer). -/
def to_jsize (n : Nat) : Int :=
  if n % UINT_RANGE < 2 ^ 31 then (n % UINT_RANGE : Nat) else (n % UINT_RANGE : Nat) - (UINT_RANGE : Int)

/-- JNI `NewObjectArray` with a null initial element: a negative length raises,
otherwise on success all slots are null. -/
def NewObjectArray (env : Env) (len : Int) (cls : jclass) (w : World) :
    Option jobjectArray × World :=
  if len < 0 then (none, w.step.raise (.collaborator 0))
  else
    match ask (env.NewObjectArray w.tick len.toNat cls) w with
    | (some _, w1) => (some { cls := cls, elems := List.replicate len.toNat none }, w1)
    | (none, w1) => (none, w1)

/-- JNI `SetObjectArrayElement`: an index outside the array raises and stores
nothing. -/
def SetObjectArrayElement (a : jobjectArray) (i : Nat) (v : jobject) (w : World) :
    jobjectArray × World :=
  if i < a.elems.length then ({ a with elems := a.elems.set i (some v) }, w)
  else (a, w.raise (.collaborator 1))

/-- Conversion `(jlong)` of a `size_t`. -/
def to_jlong (n : Nat) : Int :=
  if n % SIZE_RANGE < 2 ^ 63 then (n % SIZE_RANGE : Nat) else (n % SIZE_RANGE : Nat) - (SIZE_RANGE : Int)

/-- Conversion `(size_t)` of a `jlong`. -/
def to_size_t (i : Int) : Nat := (i % (SIZE_RANGE : Int)).toNat

/-! ## The functions of `object.c` -/

/-- `git_java_object_native`: resolve the native object behind a managed
GitObject.  The five collaborator steps of the first condition are tried in
order; the first one that fails jumps to `done` with `object` still null. -/
def git_java_object_native (env : Env) (repo_java object_java : jobject) (type : Int)
    (w : World) : Option git_object × World :=
  match ask (env.git_java_handle_get w.tick repo_java) w with
  | (none, w1) => (none, w1)
  | (some repo, w1) =>
    match FindClass env "org/libgit2/jagged/GitObject" w1 with
    | (none, w2) => (none, w2)
    | (some object_class, w2) =>
      match GetMethodID env object_class "getId" "()Lorg/libgit2/jagged/ObjectId;" w2 with
      | (none, w3) => (none, w3)
      | (some object_idmethod, w3) =>
        match ask (env.CallObjectMethod w3.tick object_java object_idmethod) w3 with
        | (none, w4) => (none, w4)
        | (some none, w4) => (none, w4)
        | (some (some oid_java), w4) =>
          match ask (env.git_java_objectid_tonative w4.tick oid_java) w4 with
          | (none, w5) => (none, w5)
          | (some oid, w5) =>
            match acquire (env.git_object_lookup w5.tick repo oid type) w5 with
            | (.error error, w6) => (none, git_java_exception_throw_giterr error w6)
            | (.ok object, w6) => (some object, w6)

/-- The `switch` of `git_java_object_init` (lines 45 to 56): the class name for
the type tag, or `none` for the `default` case. -/
def object_classname (type : Int) : Option String :=
  if type = GIT_OBJ_COMMIT then some GIT_JAVA_CLASS_COMMIT
  else if type = GIT_OBJ_TREE then some GIT_JAVA_CLASS_TREE
  else none

/-- `git_java_object_init`: the wrapper factory. -/
def git_java_object_init (env : Env) (repo_java oid_java : jobject) (object : git_object)
    (w : World) : Option jobject × World :=
  let w0 := { w with initCalls := w.initCalls + 1 }
  let type := git_object_type object
  match object_classname type with
  | none => (none, git_java_exception_throw "unknown object type: %d" (some type) w0)
  | some classname =>
    match FindClass env classname w0 with
    | (none, w1) => (none, w1)
    | (some object_class, w1) =>
      match GetMethodID env object_class "<init>"
          "(Lorg/libgit2/jagged/Repository;Lorg/libgit2/jagged/ObjectId;)V" w1 with
      | (none, w2) => (none, w2)
      | (some object_initmethod, w2) =>
        NewObject env object_class object_initmethod [repo_java, oid_java] w2

/-- `Java_org_libgit2_jagged_core_NativeMethods_objectLookup`. -/
def Java_org_libgit2_jagged_core_NativeMethods_objectLookup (env : Env)
    (repo_java oid_java : jobject) (type : Int) (w : World) : Option jobject × World :=
  match ask (env.git_java_handle_get w.tick repo_java) w with
  | (none, w1) => (none, git_object_free none w1)
  | (some repo, w1) =>
    match ask (env.git_java_objectid_tonative w1.tick oid_java) w1 with
    | (none, w2) => (none, git_object_free none w2)
    | (some oid, w2) =>
      match acquire (env.git_object_lookup w2.tick repo oid type) w2 with
      | (.error error, w3) =>
        (none, git_object_free none (git_java_exception_throw_giterr error w3))
      | (.ok object, w3) =>
        match git_java_object_init env repo_java oid_java object w3 with
        | (object_java, w4) => (object_java, git_object_free (some object) w4)

/-- `Java_org_libgit2_jagged_core_NativeMethods_commitGetMetadata`. -/
def Java_org_libgit2_jagged_core_NativeMethods_commitGetMetadata (env : Env)
    (repo_java commit_java : jobject) (w : World) : Option jobject × World :=
  match FindClass env "org/libgit2/jagged/Signature" w with
  | (none, w1) => (none, git_object_free none w1)
  | (some signature_class, w1) =>
    match GetMethodID env signature_class "<init>" "(Ljava/lang/String;Ljava/lang/String;)V" w1 with
    | (none, w2) => (none, git_object_free none w2)
    | (some signature_initmethod, w2) =>
      match FindClass env "org/libgit2/jagged/core/CommitMetadata" w2 with
      | (none, w3) => (none, git_object_free none w3)
      | (some metadata_class, w3) =>
        match GetMethodID env metadata_class "<init>"
            "(Lorg/libgit2/jagged/Signature;Lorg/libgit2/jagged/Signature;)V" w3 with
        | (none, w4) => (none, git_object_free none w4)
        | (some metadata_initmethod, w4) =>
          match git_java_object_native env repo_java commit_java GIT_OBJ_COMMIT w4 with
          | (none, w5) => (none, git_object_free none w5)
          | (some commit, w5) =>
            let committer := env.git_commit_committer commit
            let author := env.git_commit_author commit
            match git_java_utf8_to_jstring env committer.name w5 with
            | (none, w6) => (none, git_object_free (some commit) w6)
            | (some committer_name_java, w6) =>
              match git_java_utf8_to_jstring env committer.email w6 with
              | (none, w7) => (none, git_object_free (some commit) w7)
              | (some committer_email_java, w7) =>
                match git_java_utf8_to_jstring env author.name w7 with
                | (none, w8) => (none, git_object_free (some commit) w8)
                | (some author_name_java, w8) =>
                  match git_java_utf8_to_jstring env author.email w8 with
                  | (none, w9) => (none, git_object_free (some commit) w9)
                  | (some author_email_java, w9) =>
                    match NewObject env signature_class signature_initmethod
                        [committer_name_java, committer_email_java] w9 with
                    | (none, w10) => (none, git_object_free (some commit) w10)
                    | (some committer_java, w10) =>
                      match NewObject env signature_class signature_initmethod
                          [author_name_java, author_email_java] w10 with
                      | (none, w11) => (none, git_object_free (some commit) w11)
                      | (some author_java, w11) =>
                        match NewObject env metadata_class metadata_initmethod
                            [committer_java, author_java] w11 with
                        | (metadata_java, w12) =>
                          (metadata_java, git_object_free (some commit) w12)

/-- The `for` loop of `commitGetParents` (lines 167 to 182), entered with the
loop counter `i`, the current value of the variable `parent` and the array.
Every `goto done` and the normal end of the loop arrive at `done` with the
array and the world returned here.  The first argument bounds the number of
iterations; the caller passes `parents_len`, which the loop never exceeds. -/
def commitGetParents_loop (env : Env) (repo_java : jobject) (commit : git_object)
    (parents_len : Nat) :
    Nat → Nat → Option git_object → jobjectArray → World → jobjectArray × World
  | 0, _, _, parents_java, w => (parents_java, w)
  | fuel + 1, i, parent, parents_java, w =>
    if i < parents_len then
      match acquire (env.git_commit_parent w.tick commit i) w with
      | (.error error, w1) =>
        (parents_java, git_object_free parent (git_java_exception_throw_giterr error w1))
      | (.ok p, w1) =>
        match git_java_objectid_init env (git_commit_id p) w1 with
        | (none, w2) => (parents_java, git_object_free (some p) w2)
        | (some oid_java, w2) =>
          match git_java_object_init env repo_java oid_java p w2 with
          | (none, w3) => (parents_java, git_object_free (some p) w3)
          | (some parent_java, w3) =>
            match SetObjectArrayElement parents_java i parent_java w3 with
            | (parents_java1, w4) =>
              commitGetParents_loop env repo_java commit parents_len fuel (i + 1) (some p)
                parents_java1 (git_object_free (some p) w4)
    else (parents_java, w)

/-- `Java_org_libgit2_jagged_core_NativeMethods_commitGetParents`. -/
def Java_org_libgit2_jagged_core_NativeMethods_commitGetParents (env : Env)
    (repo_java commit_java : jobject) (w : World) : Option jobjectArray × World :=
  match git_java_object_native env repo_java commit_java GIT_OBJ_COMMIT w with
  | (none, w1) => (none, git_object_free none w1)
  | (some commit, w1) =>
    match FindClass env GIT_JAVA_CLASS_COMMIT w1 with
    | (none, w2) => (none, git_object_free (some commit) w2)
    | (some commit_class, w2) =>
      let parents_len := env.git_commit_parentcount commit % UINT_RANGE
      match NewObjectArray env (to_jsize parents_len) commit_class w2 with
      | (none, w3) => (none, git_object_free (some commit) w3)
      | (some parents_java, w3) =>
        match commitGetParents_loop env repo_java commit parents_len parents_len 0 none
            parents_java w3 with
        | (parents_java1, w4) => (some parents_java1, git_object_free (some commit) w4)

/-- `Java_org_libgit2_jagged_core_NativeMethods_commitGetTree`. -/
def Java_org_libgit2_jagged_core_NativeMethods_commitGetTree (env : Env)
    (repo_java commit_java : jobject) (w : World) : Option jobject × World :=
  match git_java_object_native env repo_java commit_java GIT_OBJ_COMMIT w with
  | (none, w1) => (none, git_object_free none (git_object_free none w1))
  | (some commit, w1) =>
    match FindClass env GIT_JAVA_CLASS_COMMIT w1 with
    | (none, w2) => (none, git_object_free (some commit) (git_object_free none w2))
    | (some _, w2) =>
      match acquire (env.git_commit_tree w2.tick commit) w2 with
      | (.error error, w3) =>
        (none, git_object_free (some commit)
          (git_object_free none (git_java_exception_throw_giterr error w3)))
      | (.ok tree, w3) =>
        match git_java_objectid_init env (git_tree_id tree) w3 with
        | (none, w4) => (none, git_object_free (some commit) (git_object_free (some tree) w4))
        | (some oid_java, w4) =>
          match git_java_object_init env repo_java oid_java tree w4 with
          | (tree_java, w5) =>
            (tree_java, git_object_free (some commit) (git_object_free (some tree) w5))

/-- `Java_org_libgit2_jagged_core_NativeMethods_treeGetEntryCount`.  The
exception of line 241 does not end the function: the count is still
converted and returned. -/
def Java_org_libgit2_jagged_core_NativeMethods_treeGetEntryCount (env : Env)
    (repo_java tree_java : jobject) (w : World) : Int × World :=
  match git_java_object_native env repo_java tree_java GIT_OBJ_TREE w with
  | (none, w1) => (to_jlong 0, git_object_free none w1)
  | (some tree, w1) =>
    let entrycount := env.git_tree_entrycount tree % SIZE_RANGE
    let w2 := if entrycount > INT64_MAX then
      git_java_exception_throw "Too many tree entries" none w1 else w1
    (to_jlong entrycount, git_object_free (some tree) w2)

/-- `Java_org_libgit2_jagged_core_NativeMethods_treeGetEntry`.  The outer
`none` is the failed `assert(entry_idx >= 0)`, which ends the process. -/
def Java_org_libgit2_jagged_core_NativeMethods_treeGetEntry (env : Env)
    (repo_java tree_java : jobject) (entry_idx : Int) (w : World) :
    Option (Option jobject × World) :=
  if entry_idx < 0 then none
  else some <|
    match FindClass env "org/libgit2/jagged/TreeEntry" w with
    | (none, w1) => (none, git_object_free none w1)
    | (some tree_entry_class, w1) =>
      match GetMethodID env tree_entry_class "<init>"
          "(Ljava/lang/String;Lorg/libgit2/jagged/ObjectId;II)V" w1 with
      | (none, w2) => (none, git_object_free none w2)
      | (some tree_entry_initmethod, w2) =>
        match git_java_object_native env repo_java tree_java GIT_OBJ_TREE w2 with
        | (none, w3) => (none, git_object_free none w3)
        | (some tree, w3) =>
          match env.git_tree_entry_byindex tree (to_size_t entry_idx) with
          | none =>
            (none, git_object_free (some tree)
              (git_java_exception_throw "Could not locate tree entry %d" (some entry_idx) w3))
          | some tree_entry =>
            match git_java_utf8_to_jstring env tree_entry.name w3 with
            | (none, w4) => (none, git_object_free (some tree) w4)
            | (some name_java, w4) =>
              match git_java_objectid_init env tree_entry.id w4 with
              | (none, w5) => (none, git_object_free (some tree) w5)
              | (some oid_java, w5) =>
                match NewObject env tree_entry_class tree_entry_initmethod
                    [name_java, oid_java, .jint tree_entry.type, .jint tree_entry.filemode]
                    w5 with
                | (tree_entry_java, w6) => (tree_entry_java, git_object_free (some tree) w6)

/-! ## Observations on a call -/

/-- Handles acquired between two worlds of one call. -/
def World.acquiredSince (w w1 : World) : List Nat := w1.acquired.drop w.acquired.length

/-- Handles released between two worlds of one call. -/
def World.releasedSince (w w1 : World) : List Nat := w1.released.drop w.released.length

/-- Exceptions signalled between two worlds of one call. -/
def World.thrownSince (w w1 : World) : List JThrowable := w1.thrown.drop w.thrown.length

/-- Releases match acquisitions, handle by handle: both logs only grew since
`w`, the releases made since `w` are a rearrangement of the acquisitions made
since `w`, and (hence) there are as many of the one as of the other. -/
def World.Balanced (w w1 : World) : Prop :=
  w.acquired <+: w1.acquired ∧ w.released <+: w1.released ∧
    (w.releasedSince w1).Perm (w.acquiredSince w1) ∧
    (w.releasedSince w1).length = (w.acquiredSince w1).length

instance (w w1 : World) : Decidable (w.Balanced w1) := by
  unfold World.Balanced
  infer_instance

/-- The Commit ref the bridge builds for a resolved parent: a Commit wrapper of
the repository and the managed copy of the identifier of the parent. -/
abbrev commitRef (repo_java : jobject) (P : git_object) : jobject :=
  .object GIT_JAVA_CLASS_COMMIT [repo_java, .objectId (git_commit_id P)]

/-! ## Sample collaborators -/

/-- A native handle of the sample store: the object with identifier `oid`. -/
def sampleObject (oid : git_oid) (type : Int) : git_object :=
  { handle := 1000 + oid, type := type, id := oid }

/-- The entries of the sample tree 200. -/
def sampleEntries : List git_tree_entry :=
  [ { name := "a.txt", id := 301, type := 3, filemode := 33188 },
    { name := "b.txt", id := 302, type := 3, filemode := 33188 },
    { name := "sub", id := 201, type := 2, filemode := 16384 } ]

/-- A sample world of collaborators in which nothing fails: the store holds the
commit 100 with the parents 101 and 102 and the tree 200, which has three
entries; a managed object `ref n` has the identifier `n`. -/
def sampleEnv : Env where
  git_java_handle_get := fun _ _ => .ok 1
  FindClass := fun _ _ => .ok ()
  GetMethodID := fun _ _ _ _ => .ok ()
  CallObjectMethod := fun _ o _ => .ok (some o)
  NewObject := fun _ _ _ _ => .ok ()
  NewObjectArray := fun _ _ _ => .ok ()
  git_java_objectid_tonative := fun _ j =>
    match j with
    | .ref n => .ok n
    | .objectId n => .ok n
    | _ => .fail (some (.collaborator 2))
  git_java_objectid_init := fun _ _ => .ok ()
  git_java_utf8_to_jstring := fun _ _ => .ok ()
  git_object_lookup := fun _ _ oid type =>
    if oid = 200 then
      (if type = GIT_OBJ_TREE then .ok (sampleObject 200 GIT_OBJ_TREE) else .error (-3))
    else if oid = 100 ∨ oid = 101 ∨ oid = 102 then
      (if type = GIT_OBJ_COMMIT then .ok (sampleObject oid GIT_OBJ_COMMIT) else .error (-3))
    else .error (-3)
  git_commit_parent := fun _ c i =>
    if c.id = 100 ∧ i < 2 then .ok (sampleObject (101 + i) GIT_OBJ_COMMIT) else .error (-3)
  git_commit_tree := fun _ _ => .ok (sampleObject 200 GIT_OBJ_TREE)
  git_commit_parentcount := fun c => if c.id = 100 then 2 else 0
  git_commit_committer := fun _ => { name := "C", email := "c@x" }
  git_commit_author := fun _ => { name := "A", email := "a@x" }
  git_tree_entrycount := fun t => if t.id = 200 then 3 else 0
  git_tree_entry_byindex := fun t i => if t.id = 200 then sampleEntries[i]? else none

/-- The sample collaborators, except that the store fails to resolve every
parent but the first (error code -3). -/
def secondParentFails : Env :=
  { sampleEnv with
    git_commit_parent := fun _ c i =>
      if c.id = 100 ∧ i = 0 then .ok (sampleObject 101 GIT_OBJ_COMMIT) else .error (-3) }

/-- The sample collaborators, except that the `getId` accessor returns `null`
without raising. -/
def nullIdentifier : Env :=
  { sampleEnv with CallObjectMethod := fun _ _ _ => .ok none }

/-- The sample collaborators, except that the author is the committer and the
text conversion fails at tick 13 only: the email converts for the committer
(tick 11) and the same text fails for the author (tick 13). -/
def authorEmailFailsLate : Env :=
  { sampleEnv with
    git_commit_author := fun _ => { name := "C", email := "c@x" }
    git_java_utf8_to_jstring := fun t _ =>
      if t = 13 then .fail (some (.collaborator 3)) else .ok () }

/-- Every fallible collaborator leaves an exception pending whenever it reports
failure. -/
def Env.signalsFailure (env : Env) : Prop :=
  (∀ t j, env.git_java_handle_get t j ≠ .fail none) ∧
  (∀ t n, env.FindClass t n ≠ .fail none) ∧
  (∀ t c n g, env.GetMethodID t c n g ≠ .fail none) ∧
  (∀ t o m, env.CallObjectMethod t o m ≠ .fail none) ∧
  (∀ t c m args, env.NewObject t c m args ≠ .fail none) ∧
  (∀ t n c, env.NewObjectArray t n c ≠ .fail none) ∧
  (∀ t j, env.git_java_objectid_tonative t j ≠ .fail none) ∧
  (∀ t oid, env.git_java_objectid_init t oid ≠ .fail none) ∧
  (∀ t s, env.git_java_utf8_to_jstring t s ≠ .fail none)

/-! ## Basic facts -/

section basic
variable {env : Env} {w w1 : World}

@[simp]
theorem step_tick : (w.step).tick = w.tick + 1 := rfl
@[simp]
theorem step_thrown : (w.step).thrown = w.thrown := rfl
@[simp]
theorem step_acquired : (w.step).acquired = w.acquired := rfl
@[simp]
theorem step_released : (w.step).released = w.released := rfl
@[simp]
theorem step_constructions : (w.step).constructions = w.constructions := rfl
@[simp]
theorem step_initCalls : (w.step).initCalls = w.initCalls := rfl
@[simp]
theorem raise_tick (e : JThrowable) : (w.raise e).tick = w.tick := rfl
@[simp]
theorem raise_thrown (e : JThrowable) : (w.raise e).thrown = w.thrown ++ [e] := rfl
@[simp]
theorem raise_acquired (e : JThrowable) : (w.raise e).acquired = w.acquired := rfl
@[simp]
theorem raise_released (e : JThrowable) : (w.raise e).released = w.released := rfl
@[simp]
theorem raise_constructions (e : JThrowable) :
    (w.raise e).constructions = w.constructions := rfl
@[simp]
theorem raise_initCalls (e : JThrowable) : (w.raise e).initCalls = w.initCalls := rfl

@[simp]
theorem raiseOpt_tick (e : Option JThrowable) : (w.raiseOpt e).tick = w.tick := by
  cases e <;> rfl

@[simp]
theorem raiseOpt_thrown (e : Option JThrowable) :
    (w.raiseOpt e).thrown = w.thrown ++ e.toList := by
  cases e <;> simp [World.raiseOpt]

@[simp]
theorem raiseOpt_acquired (e : Option JThrowable) :
    (w.raiseOpt e).acquired = w.acquired := by
  cases e <;> rfl

@[simp]
theorem raiseOpt_released (e : Option JThrowable) :
    (w.raiseOpt e).released = w.released := by
  cases e <;> rfl

@[simp]
theorem raiseOpt_constructions (e : Option JThrowable) :
    (w.raiseOpt e).constructions = w.constructions := by
  cases e <;> rfl

@[simp]
theorem raiseOpt_initCalls (e : Option JThrowable) :
    (w.raiseOpt e).initCalls = w.initCalls := by
  cases e <;> rfl

@[simp]
theorem free_none : git_object_free none w = w := rfl
@[simp]
theorem free_tick (o : Option git_object) : (git_object_free o w).tick = w.tick := by
  cases o <;> rfl
@[simp]
theorem free_thrown (o : Option git_object) :
    (git_object_free o w).thrown = w.thrown := by
  cases o <;> rfl
@[simp]
theorem free_acquired (o : Option git_object) :
    (git_object_free o w).acquired = w.acquired := by
  cases o <;> rfl
@[simp]
theorem free_released (o : git_object) :
    (git_object_free (some o) w).released = w.released ++ [o.handle] := rfl
@[simp]
theorem free_constructions (o : Option git_object) :
    (git_object_free o w).constructions = w.constructions := by
  cases o <;> rfl
@[simp]
theorem free_initCalls (o : Option git_object) :
    (git_object_free o w).initCalls = w.initCalls := by
  cases o <;> rfl

@[simp]
theorem ask_tick {α : Type} (o : Outcome α) : (ask o w).2.tick = w.tick + 1 := by
  cases o <;> simp [ask]
@[simp]
theorem ask_acquired {α : Type} (o : Outcome α) : (ask o w).2.acquired = w.acquired := by
  cases o <;> simp [ask]
@[simp]
theorem ask_released {α : Type} (o : Outcome α) : (ask o w).2.released = w.released := by
  cases o <;> simp [ask]
@[simp]
theorem ask_constructions {α : Type} (o : Outcome α) :
    (ask o w).2.constructions = w.constructions := by
  cases o <;> simp [ask]
@[simp]
theorem ask_initCalls {α : Type} (o : Outcome α) :
    (ask o w).2.initCalls = w.initCalls := by
  cases o <;> simp [ask]

@[simp]
theorem ask_eq_some {α : Type} (o : Outcome α) (a : α) :
    ask o w = (some a, w1) ↔ o = .ok a ∧ w1 = w.step := by
  cases o <;> simp [ask, eq_comm]

theorem ask_eq_none_iff {α : Type} (o : Outcome α) :
    ask o w = (none, w1) ↔ ∃ e, o = .fail e ∧ w1 = w.step.raiseOpt e := by
  cases o <;> simp [ask, eq_comm]

@[simp]
theorem ask_eq_none {α : Type} (o : Outcome α) :
    ask o w = (none, w1) ↔ (∃ e, o = .fail e) ∧ w1 = (ask o w).2 := by
  cases o <;> simp [ask, eq_comm]

@[simp]
theorem acquire_tick (r : Except Int git_object) : (acquire r w).2.tick = w.tick + 1 := by
  cases r <;> simp [acquire]
@[simp]
theorem acquire_thrown (r : Except Int git_object) :
    (acquire r w).2.thrown = w.thrown := by
  cases r <;> simp [acquire]
@[simp]
theorem acquire_released (r : Except Int git_object) :
    (acquire r w).2.released = w.released := by
  cases r <;> simp [acquire]
@[simp]
theorem acquire_constructions (r : Except Int git_object) :
    (acquire r w).2.constructions = w.constructions := by
  cases r <;> simp [acquire]
@[simp]
theorem acquire_initCalls (r : Except Int git_object) :
    (acquire r w).2.initCalls = w.initCalls := by
  cases r <;> simp [acquire]

@[simp]
theorem acquire_eq_ok (r : Except Int git_object) (o : git_object) :
    acquire r w = (.ok o, w1) ↔
      r = .ok o ∧ w1 = { w.step with acquired := w.acquired ++ [o.handle] } := by
  cases r <;> simp [acquire, eq_comm]
  rintro rfl; rfl

@[simp]
theorem acquire_eq_error (r : Except Int git_object) (c : Int) :
    acquire r w = (.error c, w1) ↔ r = .error c ∧ w1 = w.step := by
  cases r <;> simp [acquire, eq_comm]

@[simp]
theorem FindClass_tick (n : String) : (FindClass env n w).2.tick = w.tick + 1 := by
  unfold FindClass; cases env.FindClass w.tick n <;> simp [ask]
@[simp]
theorem FindClass_acquired (n : String) :
    (FindClass env n w).2.acquired = w.acquired := by
  unfold FindClass; cases env.FindClass w.tick n <;> simp [ask]
@[simp]
theorem FindClass_released (n : String) :
    (FindClass env n w).2.released = w.released := by
  unfold FindClass; cases env.FindClass w.tick n <;> simp [ask]
@[simp]
theorem FindClass_constructions (n : String) :
    (FindClass env n w).2.constructions = w.constructions := by
  unfold FindClass; cases env.FindClass w.tick n <;> simp [ask]
@[simp]
theorem FindClass_initCalls (n : String) :
    (FindClass env n w).2.initCalls = w.initCalls := by
  unfold FindClass; cases env.FindClass w.tick n <;> simp [ask]

@[simp]
theorem FindClass_eq_some (n : String) (c : jclass) :
    FindClass env n w = (some c, w1) ↔
      env.FindClass w.tick n = .ok () ∧ c = n ∧ w1 = w.step := by
  unfold FindClass; cases env.FindClass w.tick n <;> simp [ask, eq_comm]

theorem FindClass_eq_none_iff (n : String) :
    FindClass env n w = (none, w1) ↔
      ∃ e, env.FindClass w.tick n = .fail e ∧ w1 = w.step.raiseOpt e := by
  unfold FindClass; cases env.FindClass w.tick n <;> simp [ask, eq_comm]

@[simp]
theorem FindClass_eq_none (n : String) :
    FindClass env n w = (none, w1) ↔
      (∃ e, env.FindClass w.tick n = .fail e) ∧ w1 = (FindClass env n w).2 := by
  unfold FindClass; cases env.FindClass w.tick n <;> simp [ask, eq_comm]

@[simp]
theorem GetMethodID_tick (c : jclass) (n g : String) :
    (GetMethodID env c n g w).2.tick = w.tick + 1 := by
  unfold GetMethodID; cases env.GetMethodID w.tick c n g <;> simp [ask]
@[simp]
theorem GetMethodID_acquired (c : jclass) (n g : String) :
    (GetMethodID env c n g w).2.acquired = w.acquired := by
  unfold GetMethodID; cases env.GetMethodID w.tick c n g <;> simp [ask]
@[simp]
theorem GetMethodID_released (c : jclass) (n g : String) :
    (GetMethodID env c n g w).2.released = w.released := by
  unfold GetMethodID; cases env.GetMethodID w.tick c n g <;> simp [ask]
@[simp]
theorem GetMethodID_constructions (c : jclass) (n g : String) :
    (GetMethodID env c n g w).2.constructions = w.constructions := by
  unfold GetMethodID; cases env.GetMethodID w.tick c n g <;> simp [ask]
@[simp]
theorem GetMethodID_initCalls (c : jclass) (n g : String) :
    (GetMethodID env c n g w).2.initCalls = w.initCalls := by
  unfold GetMethodID; cases env.GetMethodID w.tick c n g <;> simp [ask]

@[simp]
theorem GetMethodID_eq_some (c : jclass) (n g : String) (m : jmethodID) :
    GetMethodID env c n g w = (some m, w1) ↔
      env.GetMethodID w.tick c n g = .ok () ∧ m = { cls := c, name := n, sig := g } ∧
        w1 = w.step := by
  unfold GetMethodID; cases env.GetMethodID w.tick c n g <;> simp [ask, eq_comm]

theorem GetMethodID_eq_none_iff (c : jclass) (n g : String) :
    GetMethodID env c n g w = (none, w1) ↔
      ∃ e, env.GetMethodID w.tick c n g = .fail e ∧ w1 = w.step.raiseOpt e := by
  unfold GetMethodID; cases env.GetMethodID w.tick c n g <;> simp [ask, eq_comm]

@[simp]
theorem GetMethodID_eq_none (c : jclass) (n g : String) :
    GetMethodID env c n g w = (none, w1) ↔
      (∃ e, env.GetMethodID w.tick c n g = .fail e) ∧ w1 = (GetMethodID env c n g w).2 := by
  unfold GetMethodID; cases env.GetMethodID w.tick c n g <;> simp [ask, eq_comm]

@[simp]
theorem objectid_init_tick (oid : git_oid) :
    (git_java_objectid_init env oid w).2.tick = w.tick + 1 := by
  unfold git_java_objectid_init; cases env.git_java_objectid_init w.tick oid <;> simp [ask]
@[simp]
theorem objectid_init_acquired (oid : git_oid) :
    (git_java_objectid_init env oid w).2.acquired = w.acquired := by
  unfold git_java_objectid_init; cases env.git_java_objectid_init w.tick oid <;> simp [ask]
@[simp]
theorem objectid_init_released (oid : git_oid) :
    (git_java_objectid_init env oid w).2.released = w.released := by
  unfold git_java_objectid_init; cases env.git_java_objectid_init w.tick oid <;> simp [ask]
@[simp]
theorem objectid_init_constructions (oid : git_oid) :
    (git_java_objectid_init env oid w).2.constructions = w.constructions := by
  unfold git_java_objectid_init; cases env.git_java_objectid_init w.tick oid <;> simp [ask]
@[simp]
theorem objectid_init_initCalls (oid : git_oid) :
    (git_java_objectid_init env oid w).2.initCalls = w.initCalls := by
  unfold git_java_objectid_init; cases env.git_java_objectid_init w.tick oid <;> simp [ask]

@[simp]
theorem objectid_init_eq_some (oid : git_oid) (j : jobject) :
    git_java_objectid_init env oid w = (some j, w1) ↔
      env.git_java_objectid_init w.tick oid = .ok () ∧ j = .objectId oid ∧ w1 = w.step := by
  unfold git_java_objectid_init
  cases env.git_java_objectid_init w.tick oid <;> simp [ask, eq_comm]

theorem objectid_init_eq_none_iff (oid : git_oid) :
    git_java_objectid_init env oid w = (none, w1) ↔
      ∃ e, env.git_java_objectid_init w.tick oid = .fail e ∧ w1 = w.step.raiseOpt e := by
  unfold git_java_objectid_init
  cases env.git_java_objectid_init w.tick oid <;> simp [ask, eq_comm]

@[simp]
theorem objectid_init_eq_none (oid : git_oid) :
    git_java_objectid_init env oid w = (none, w1) ↔
      (∃ e, env.git_java_objectid_init w.tick oid = .fail e) ∧
        w1 = (git_java_objectid_init env oid w).2 := by
  unfold git_java_objectid_init
  cases env.git_java_objectid_init w.tick oid <;> simp [ask, eq_comm]

@[simp]
theorem utf8_tick (t : String) :
    (git_java_utf8_to_jstring env t w).2.tick = w.tick + 1 := by
  unfold git_java_utf8_to_jstring; cases env.git_java_utf8_to_jstring w.tick t <;> simp [ask]
@[simp]
theorem utf8_acquired (t : String) :
    (git_java_utf8_to_jstring env t w).2.acquired = w.acquired := by
  unfold git_java_utf8_to_jstring; cases env.git_java_utf8_to_jstring w.tick t <;> simp [ask]
@[simp]
theorem utf8_released (t : String) :
    (git_java_utf8_to_jstring env t w).2.released = w.released := by
  unfold git_java_utf8_to_jstring; cases env.git_java_utf8_to_jstring w.tick t <;> simp [ask]
@[simp]
theorem utf8_constructions (t : String) :
    (git_java_utf8_to_jstring env t w).2.constructions = w.constructions := by
  unfold git_java_utf8_to_jstring; cases env.git_java_utf8_to_jstring w.tick t <;> simp [ask]
@[simp]
theorem utf8_initCalls (t : String) :
    (git_java_utf8_to_jstring env t w).2.initCalls = w.initCalls := by
  unfold git_java_utf8_to_jstring; cases env.git_java_utf8_to_jstring w.tick t <;> simp [ask]

@[simp]
theorem utf8_eq_some (t : String) (j : jobject) :
    git_java_utf8_to_jstring env t w = (some j, w1) ↔
      env.git_java_utf8_to_jstring w.tick t = .ok () ∧ j = .string t ∧ w1 = w.step := by
  unfold git_java_utf8_to_jstring
  cases env.git_java_utf8_to_jstring w.tick t <;> simp [ask, eq_comm]

theorem utf8_eq_none_iff (t : String) :
    git_java_utf8_to_jstring env t w = (none, w1) ↔
      ∃ e, env.git_java_utf8_to_jstring w.tick t = .fail e ∧ w1 = w.step.raiseOpt e := by
  unfold git_java_utf8_to_jstring
  cases env.git_java_utf8_to_jstring w.tick t <;> simp [ask, eq_comm]

@[simp]
theorem utf8_eq_none (t : String) :
    git_java_utf8_to_jstring env t w = (none, w1) ↔
      (∃ e, env.git_java_utf8_to_jstring w.tick t = .fail e) ∧
        w1 = (git_java_utf8_to_jstring env t w).2 := by
  unfold git_java_utf8_to_jstring
  cases env.git_java_utf8_to_jstring w.tick t <;> simp [ask, eq_comm]

@[simp]
theorem NewObject_tick (c : jclass) (m : jmethodID) (args : List jobject) :
    (NewObject env c m args w).2.tick = w.tick + 1 := by
  unfold NewObject; cases env.NewObject w.tick c m args <;> simp [ask]
@[simp]
theorem NewObject_acquired (c : jclass) (m : jmethodID) (args : List jobject) :
    (NewObject env c m args w).2.acquired = w.acquired := by
  unfold NewObject; cases env.NewObject w.tick c m args <;> simp [ask]
@[simp]
theorem NewObject_released (c : jclass) (m : jmethodID) (args : List jobject) :
    (NewObject env c m args w).2.released = w.released := by
  unfold NewObject; cases env.NewObject w.tick c m args <;> simp [ask]
@[simp]
theorem NewObject_constructions (c : jclass) (m : jmethodID) (args : List jobject) :
    (NewObject env c m args w).2.constructions = w.constructions ++ [(c, args)] := by
  unfold NewObject; cases env.NewObject w.tick c m args <;> simp [ask]
@[simp]
theorem NewObject_initCalls (c : jclass) (m : jmethodID) (args : List jobject) :
    (NewObject env c m args w).2.initCalls = w.initCalls := by
  unfold NewObject; cases env.NewObject w.tick c m args <;> simp [ask]

@[simp]
theorem NewObject_eq_some (c : jclass) (m : jmethodID) (args : List jobject)
    (j : jobject) :
    NewObject env c m args w = (some j, w1) ↔
      env.NewObject w.tick c m args = .ok () ∧ j = .object c args ∧
        w1 = { w.step with constructions := w.constructions ++ [(c, args)] } := by
  unfold NewObject
  cases env.NewObject w.tick c m args <;> simp [ask, eq_comm, World.step]

theorem NewObject_eq_none_iff (c : jclass) (m : jmethodID) (args : List jobject) :
    NewObject env c m args w = (none, w1) ↔
      ∃ e, env.NewObject w.tick c m args = .fail e ∧
        w1 = ({ w.step with constructions := w.constructions ++ [(c, args)] }).raiseOpt e := by
  unfold NewObject
  cases env.NewObject w.tick c m args <;> simp [ask, eq_comm, World.step]

@[simp]
theorem NewObject_eq_none (c : jclass) (m : jmethodID) (args : List jobject) :
    NewObject env c m args w = (none, w1) ↔
      (∃ e, env.NewObject w.tick c m args = .fail e) ∧ w1 = (NewObject env c m args w).2 := by
  unfold NewObject
  cases env.NewObject w.tick c m args <;> simp [ask, eq_comm, World.step]

theorem NewObject_eq (c : jclass) (m : jmethodID) (args : List jobject) (j : Option jobject) :
    NewObject env c m args w = (j, w1) ↔
      (NewObject env c m args w).1 = j ∧ w1 = (NewObject env c m args w).2 := by
  constructor
  · intro h; rw [h]; exact ⟨rfl, rfl⟩
  · rintro ⟨rfl, rfl⟩; rfl

end basic

section composite
variable {env : Env} {w w1 : World}

theorem git_java_object_native_some (repo_java object_java : jobject) (type : Int)
    (o : git_object)
    (h : git_java_object_native env repo_java object_java type w = (some o, w1)) :
    w1 = { w with tick := w.tick + 6, acquired := w.acquired ++ [o.handle] } := by
  unfold git_java_object_native at h
  repeat' split at h
  all_goals simp_all
  obtain ⟨rfl, rfl⟩ := h
  simp [World.step]

theorem git_java_object_native_none (repo_java object_java : jobject) (type : Int)
    (h : git_java_object_native env repo_java object_java type w = (none, w1)) :
    w1.acquired = w.acquired ∧ w1.released = w.released ∧
      w1.constructions = w.constructions ∧ w1.initCalls = w.initCalls := by
  unfold git_java_object_native at h
  repeat' split at h
  all_goals simp_all [git_java_exception_throw_giterr]
  all_goals (subst_vars; simp)

@[simp]
theorem native_eq_some (repo_java object_java : jobject) (type : Int) (o : git_object) :
    git_java_object_native env repo_java object_java type w = (some o, w1) ↔
      (git_java_object_native env repo_java object_java type w).1 = some o ∧
        w1 = { w with tick := w.tick + 6, acquired := w.acquired ++ [o.handle] } := by
  constructor
  · intro h
    exact ⟨by rw [h], git_java_object_native_some _ _ _ _ h⟩
  · rintro ⟨h1, rfl⟩
    have h2 := git_java_object_native_some repo_java object_java type o
      (Prod.ext h1 rfl :
        git_java_object_native env repo_java object_java type w = (some o, _))
    exact Prod.ext h1 h2

@[simp]
theorem native_eq_none (repo_java object_java : jobject) (type : Int) :
    git_java_object_native env repo_java object_java type w = (none, w1) ↔
      (git_java_object_native env repo_java object_java type w).1 = none ∧
        w1 = (git_java_object_native env repo_java object_java type w).2 := by
  constructor
  · intro h
    rw [h]; simp
  · rintro ⟨h1, rfl⟩; exact Prod.ext h1 rfl

@[simp]
theorem native_acquired (repo_java object_java : jobject) (type : Int) :
    (git_java_object_native env repo_java object_java type w).2.acquired =
      w.acquired ++ ((git_java_object_native env repo_java object_java type w).1.toList.map
        git_object.handle) := by
  rcases h : git_java_object_native env repo_java object_java type w with ⟨_ | o, w1⟩
  · simp [(git_java_object_native_none _ _ _ h).1]
  · simp [git_java_object_native_some _ _ _ _ h]

@[simp]
theorem native_released (repo_java object_java : jobject) (type : Int) :
    (git_java_object_native env repo_java object_java type w).2.released = w.released := by
  rcases h : git_java_object_native env repo_java object_java type w with ⟨_ | o, w1⟩
  · simp [(git_java_object_native_none _ _ _ h).2.1]
  · simp [git_java_object_native_some _ _ _ _ h]

@[simp]
theorem native_constructions (repo_java object_java : jobject) (type : Int) :
    (git_java_object_native env repo_java object_java type w).2.constructions =
      w.constructions := by
  rcases h : git_java_object_native env repo_java object_java type w with ⟨_ | o, w1⟩
  · simp [(git_java_object_native_none _ _ _ h).2.2.1]
  · simp [git_java_object_native_some _ _ _ _ h]

@[simp]
theorem native_initCalls (repo_java object_java : jobject) (type : Int) :
    (git_java_object_native env repo_java object_java type w).2.initCalls = w.initCalls := by
  rcases h : git_java_object_native env repo_java object_java type w with ⟨_ | o, w1⟩
  · simp [(git_java_object_native_none _ _ _ h).2.2.2]
  · simp [git_java_object_native_some _ _ _ _ h]

theorem git_java_object_init_frame (repo_java oid_java : jobject) (o : git_object) :
    (git_java_object_init env repo_java oid_java o w).2.acquired = w.acquired ∧
    (git_java_object_init env repo_java oid_java o w).2.released = w.released ∧
    (git_java_object_init env repo_java oid_java o w).2.initCalls = w.initCalls + 1 := by
  unfold git_java_object_init
  simp only []
  repeat' split
  all_goals simp_all [git_java_exception_throw]

@[simp]
theorem init_eq (repo_java oid_java : jobject) (o : git_object) (j : Option jobject) :
    git_java_object_init env repo_java oid_java o w = (j, w1) ↔
      (git_java_object_init env repo_java oid_java o w).1 = j ∧
        w1 = (git_java_object_init env repo_java oid_java o w).2 := by
  constructor
  · intro h
    rw [h]; simp
  · rintro ⟨rfl, rfl⟩; rfl

@[simp]
theorem init_acquired (repo_java oid_java : jobject) (o : git_object) :
    (git_java_object_init env repo_java oid_java o w).2.acquired = w.acquired :=
  (git_java_object_init_frame repo_java oid_java o).1

@[simp]
theorem init_released (repo_java oid_java : jobject) (o : git_object) :
    (git_java_object_init env repo_java oid_java o w).2.released = w.released :=
  (git_java_object_init_frame repo_java oid_java o).2.1

@[simp]
theorem init_initCalls (repo_java oid_java : jobject) (o : git_object) :
    (git_java_object_init env repo_java oid_java o w).2.initCalls = w.initCalls + 1 :=
  (git_java_object_init_frame repo_java oid_java o).2.2

end composite

/-! ## Resource balance of the single-object operations -/

theorem objectLookup_balanced (env : Env) (repo_java oid_java : jobject) (type : Int)
    (w : World) :
    w.Balanced
      (Java_org_libgit2_jagged_core_NativeMethods_objectLookup env repo_java oid_java type w).2 := by
  unfold Java_org_libgit2_jagged_core_NativeMethods_objectLookup
  repeat' split
  all_goals simp_all [World.Balanced, World.releasedSince, World.acquiredSince,
    git_java_exception_throw_giterr]

theorem commitGetMetadata_balanced (env : Env) (repo_java commit_java : jobject) (w : World) :
    w.Balanced
      (Java_org_libgit2_jagged_core_NativeMethods_commitGetMetadata env repo_java commit_java
        w).2 := by
  unfold Java_org_libgit2_jagged_core_NativeMethods_commitGetMetadata
  repeat' split
  all_goals simp_all [World.Balanced, World.releasedSince, World.acquiredSince, NewObject_eq]
  repeat' split
  all_goals simp_all [World.Balanced, World.releasedSince, World.acquiredSince, NewObject_eq]

theorem commitGetTree_balanced (env : Env) (repo_java commit_java : jobject) (w : World) :
    w.Balanced
      (Java_org_libgit2_jagged_core_NativeMethods_commitGetTree env repo_java commit_java
        w).2 := by
  unfold Java_org_libgit2_jagged_core_NativeMethods_commitGetTree
  repeat' split
  all_goals simp_all [World.Balanced, World.releasedSince, World.acquiredSince,
    git_java_exception_throw_giterr]
  all_goals exact List.Perm.swap _ _ _

theorem treeGetEntryCount_balanced (env : Env) (repo_java tree_java : jobject) (w : World) :
    w.Balanced
      (Java_org_libgit2_jagged_core_NativeMethods_treeGetEntryCount env repo_java tree_java
        w).2 := by
  unfold Java_org_libgit2_jagged_core_NativeMethods_treeGetEntryCount
  repeat' split
  all_goals simp_all [World.Balanced, World.releasedSince, World.acquiredSince,
    git_java_exception_throw]
  split <;> simp

theorem treeGetEntry_balanced (env : Env) (repo_java tree_java : jobject) (entry_idx : Int)
    (w : World) (r : Option jobject) (w1 : World)
    (h : Java_org_libgit2_jagged_core_NativeMethods_treeGetEntry env repo_java tree_java
      entry_idx w = some (r, w1)) :
    w.Balanced w1 := by
  unfold Java_org_libgit2_jagged_core_NativeMethods_treeGetEntry at h
  split at h
  · simp at h
  · simp only [Option.some.injEq] at h
    have h2 := congrArg Prod.snd h
    simp only at h2
    subst h2
    clear h
    repeat' split
    all_goals simp_all [World.Balanced, World.releasedSince, World.acquiredSince,
      git_java_exception_throw, NewObject_eq]

theorem treeGetEntry_returns (env : Env) (repo_java tree_java : jobject) (entry_idx : Int)
    (w : World) (h : 0 ≤ entry_idx) :
    ∃ r w1, Java_org_libgit2_jagged_core_NativeMethods_treeGetEntry env repo_java tree_java
      entry_idx w = some (r, w1) := by
  unfold Java_org_libgit2_jagged_core_NativeMethods_treeGetEntry
  rw [if_neg (by omega)]
  exact ⟨_, _, rfl⟩

/-- C5: in objectLookup, commitGetMetadata, commitGetTree, treeGetEntryCount and
treeGetEntry, from any world and under any behaviour of the collaborators
(which decides the exit path taken), the releases made by the call are a
rearrangement of the acquisitions made by the call and their numbers agree;
releasing a null handle records nothing.  For treeGetEntry this is said of
every call with a non-negative index, which always returns. -/
theorem resource_balance (env : Env) (repo_java obj_java : jobject) (type : Int)
    (w : World) :
    w.Balanced (Java_org_libgit2_jagged_core_NativeMethods_objectLookup env repo_java obj_java
        type w).2 ∧
    w.Balanced (Java_org_libgit2_jagged_core_NativeMethods_commitGetMetadata env repo_java
        obj_java w).2 ∧
    w.Balanced (Java_org_libgit2_jagged_core_NativeMethods_commitGetTree env repo_java
        obj_java w).2 ∧
    w.Balanced (Java_org_libgit2_jagged_core_NativeMethods_treeGetEntryCount env repo_java
        obj_java w).2 ∧
    (∀ entry_idx : Int, 0 ≤ entry_idx →
      ∃ r w1, Java_org_libgit2_jagged_core_NativeMethods_treeGetEntry env repo_java obj_java
          entry_idx w = some (r, w1) ∧ w.Balanced w1) := by
  refine ⟨objectLookup_balanced .., commitGetMetadata_balanced .., commitGetTree_balanced ..,
    treeGetEntryCount_balanced .., ?_⟩
  intro entry_idx h
  obtain ⟨r, w1, h1⟩ := treeGetEntry_returns env repo_java obj_java entry_idx w h
  exact ⟨r, w1, h1, treeGetEntry_balanced _ _ _ _ _ _ _ h1⟩

/-- Witness of C5 on the sample store (tree 200, index 1): the call returns and
is balanced. -/
theorem resource_balance_witness :
    ∃ r w1, Java_org_libgit2_jagged_core_NativeMethods_treeGetEntry sampleEnv (.ref 1)
        (.ref 200) 1 World.start = some (r, w1) ∧ World.start.Balanced w1 :=
  (resource_balance sampleEnv (.ref 1) (.ref 200) 0 World.start).2.2.2.2 1 (by decide)

/-! ## `commitGetParents` when a parent fails to resolve -/

/-- C3 (divergence): on the sample commit 100, whose second parent the store
fails to resolve, commitGetParents signals the store error and still returns
the array allocated before the loop, with the first slot filled and the
second one null; the result is not null. -/
theorem commitGetParents_partial_result :
    Java_org_libgit2_jagged_core_NativeMethods_commitGetParents secondParentFails (.ref 1)
        (.ref 100) World.start =
      (some { cls := GIT_JAVA_CLASS_COMMIT,
              elems := [some (.object GIT_JAVA_CLASS_COMMIT [.ref 1, .objectId 101]), none] },
       { tick := 14, thrown := [.giterr (-3)], acquired := [1100, 1101],
         released := [1101, 1101, 1100],
         constructions := [(GIT_JAVA_CLASS_COMMIT, [.ref 1, .objectId 101])],
         initCalls := 1 }) := by
  rfl

/-- C4 (divergence): in the same call the handle 1101 of the first parent is
acquired once and released twice: once at the end of its own iteration and
once more on the failure path of the next iteration, where the variable
`parent` still holds it. -/
theorem commitGetParents_double_release :
    (World.start.acquiredSince
        (Java_org_libgit2_jagged_core_NativeMethods_commitGetParents secondParentFails
          (.ref 1) (.ref 100) World.start).2).count 1101 = 1 ∧
      (World.start.releasedSince
        (Java_org_libgit2_jagged_core_NativeMethods_commitGetParents secondParentFails
          (.ref 1) (.ref 100) World.start).2).count 1101 = 2 ∧
      ¬ World.start.Balanced
        (Java_org_libgit2_jagged_core_NativeMethods_commitGetParents secondParentFails
          (.ref 1) (.ref 100) World.start).2 := by
  decide

/-! ## A null identifier from `getId` -/

theorem nullIdentifier_signalsFailure : nullIdentifier.signalsFailure := by
  refine ⟨?_, ?_, ?_, ?_, ?_, ?_, ?_, ?_, ?_⟩ <;> intros <;>
    simp [nullIdentifier, sampleEnv]
  split <;> simp

/-- C10 (divergence): with collaborators that never fail silently, but a
`getId` accessor that returns `null` without raising, the object-returning
operations that resolve their object through `git_java_object_native` return
null with no exception pending. -/
theorem null_identifier_returns_null_silently :
    nullIdentifier.signalsFailure ∧
    ((Java_org_libgit2_jagged_core_NativeMethods_commitGetMetadata nullIdentifier (.ref 1)
        (.ref 100) World.start).1 = none ∧
      (Java_org_libgit2_jagged_core_NativeMethods_commitGetMetadata nullIdentifier (.ref 1)
        (.ref 100) World.start).2.thrown = []) ∧
    ((Java_org_libgit2_jagged_core_NativeMethods_commitGetParents nullIdentifier (.ref 1)
        (.ref 100) World.start).1 = none ∧
      (Java_org_libgit2_jagged_core_NativeMethods_commitGetParents nullIdentifier (.ref 1)
        (.ref 100) World.start).2.thrown = []) ∧
    ((Java_org_libgit2_jagged_core_NativeMethods_commitGetTree nullIdentifier (.ref 1)
        (.ref 100) World.start).1 = none ∧
      (Java_org_libgit2_jagged_core_NativeMethods_commitGetTree nullIdentifier (.ref 1)
        (.ref 100) World.start).2.thrown = []) ∧
    (Java_org_libgit2_jagged_core_NativeMethods_treeGetEntry nullIdentifier (.ref 1)
        (.ref 200) 0 World.start).map (fun p => (p.1, p.2.thrown)) = some (none, []) :=
  ⟨nullIdentifier_signalsFailure, ⟨rfl, rfl⟩, ⟨rfl, rfl⟩, ⟨rfl, rfl⟩, rfl⟩

/-! ## Store failures -/

/-- C9: when the collaborators before the store lookup succeed and the store
reports a failure with code `code` for the requested type, the resolver
`git_java_object_native` and objectLookup both return no object and signal
exactly one exception, the one carrying `code`; objectLookup does not run the
wrapper factory, requests no construction and acquires no handle. -/
theorem store_failure_reported (env : Env) (repo_java object_java oid_java : jobject)
    (repo : git_repository) (oid : git_oid) (type code : Int)
    (hrepo : ∀ t, env.git_java_handle_get t repo_java = .ok repo)
    (hcls : ∀ t, env.FindClass t "org/libgit2/jagged/GitObject" = .ok ())
    (hmeth : ∀ t, env.GetMethodID t "org/libgit2/jagged/GitObject" "getId"
      "()Lorg/libgit2/jagged/ObjectId;" = .ok ())
    (hid : ∀ t m, env.CallObjectMethod t object_java m = .ok (some oid_java))
    (hoid : ∀ t, env.git_java_objectid_tonative t oid_java = .ok oid)
    (hfail : ∀ t, env.git_object_lookup t repo oid type = .error code)
    (w : World) :
    ((git_java_object_native env repo_java object_java type w).1 = none ∧
      (git_java_object_native env repo_java object_java type w).2.thrown =
        w.thrown ++ [.giterr code]) ∧
    ((Java_org_libgit2_jagged_core_NativeMethods_objectLookup env repo_java oid_java type
        w).1 = none ∧
      (Java_org_libgit2_jagged_core_NativeMethods_objectLookup env repo_java oid_java type
        w).2.thrown = w.thrown ++ [.giterr code] ∧
      (Java_org_libgit2_jagged_core_NativeMethods_objectLookup env repo_java oid_java type
        w).2.initCalls = w.initCalls ∧
      (Java_org_libgit2_jagged_core_NativeMethods_objectLookup env repo_java oid_java type
        w).2.constructions = w.constructions ∧
      (Java_org_libgit2_jagged_core_NativeMethods_objectLookup env repo_java oid_java type
        w).2.acquired = w.acquired) := by
  simp [git_java_object_native, Java_org_libgit2_jagged_core_NativeMethods_objectLookup, ask,
    FindClass, GetMethodID, acquire, git_java_exception_throw_giterr, hrepo, hcls, hmeth, hid,
    hoid, hfail]

/-- Witness of C9: in the sample store the identifier 200 is a tree; a lookup
with requested type commit fails with code -3 and yields no wrapper. -/
theorem store_failure_reported_witness :
    ((git_java_object_native sampleEnv (.ref 1) (.ref 200) GIT_OBJ_COMMIT World.start).1 = none ∧
      (git_java_object_native sampleEnv (.ref 1) (.ref 200) GIT_OBJ_COMMIT World.start).2.thrown =
        World.start.thrown ++ [.giterr (-3)]) ∧
    ((Java_org_libgit2_jagged_core_NativeMethods_objectLookup sampleEnv (.ref 1) (.ref 200)
        GIT_OBJ_COMMIT World.start).1 = none ∧
      (Java_org_libgit2_jagged_core_NativeMethods_objectLookup sampleEnv (.ref 1) (.ref 200)
        GIT_OBJ_COMMIT World.start).2.thrown = World.start.thrown ++ [.giterr (-3)] ∧
      (Java_org_libgit2_jagged_core_NativeMethods_objectLookup sampleEnv (.ref 1) (.ref 200)
        GIT_OBJ_COMMIT World.start).2.initCalls = World.start.initCalls ∧
      (Java_org_libgit2_jagged_core_NativeMethods_objectLookup sampleEnv (.ref 1) (.ref 200)
        GIT_OBJ_COMMIT World.start).2.constructions = World.start.constructions ∧
      (Java_org_libgit2_jagged_core_NativeMethods_objectLookup sampleEnv (.ref 1) (.ref 200)
        GIT_OBJ_COMMIT World.start).2.acquired = World.start.acquired) :=
  store_failure_reported sampleEnv (.ref 1) (.ref 200) (.ref 200) 1 200 GIT_OBJ_COMMIT (-3)
    (fun _ => rfl) (fun _ => rfl) (fun _ => rfl) (fun _ _ => rfl) (fun _ => rfl)
    (fun _ => rfl) World.start

/-! ## Entry count -/

theorem INT64_MAX_eq : INT64_MAX = 9223372036854775807 := by
  norm_num [INT64_MAX]

theorem SIZE_RANGE_eq : SIZE_RANGE = 18446744073709551616 := by
  norm_num [SIZE_RANGE]

theorem to_jlong_of_le (c : Nat) (h : c ≤ INT64_MAX) : to_jlong c = (c : Int) := by
  rw [INT64_MAX_eq] at h
  have h1 : c % SIZE_RANGE = c := Nat.mod_eq_of_lt (by rw [SIZE_RANGE_eq]; omega)
  unfold to_jlong
  rw [h1, if_pos (by norm_num; omega)]

/-- C7: for a tree that resolves and whose native entry count `c` is a value of
`size_t`, treeGetEntryCount signals the overflow exception exactly when
`c > 2^63 - 1` (and then nothing else); when `c <= 2^63 - 1` it signals nothing
and returns `c`. -/
theorem treeGetEntryCount_overflow (env : Env) (repo_java tree_java : jobject)
    (tree : git_object) (c : Nat)
    (hres : ∀ w, (git_java_object_native env repo_java tree_java GIT_OBJ_TREE w).1 = some tree)
    (hc : env.git_tree_entrycount tree = c) (hword : c < SIZE_RANGE) (w : World) :
    (JThrowable.message "Too many tree entries" none ∈
        w.thrownSince (Java_org_libgit2_jagged_core_NativeMethods_treeGetEntryCount env
          repo_java tree_java w).2 ↔ c > 2 ^ 63 - 1) ∧
    (c > 2 ^ 63 - 1 →
      (Java_org_libgit2_jagged_core_NativeMethods_treeGetEntryCount env repo_java tree_java
          w).2.thrown = w.thrown ++ [.message "Too many tree entries" none]) ∧
    (c ≤ 2 ^ 63 - 1 →
      (Java_org_libgit2_jagged_core_NativeMethods_treeGetEntryCount env repo_java tree_java
          w).2.thrown = w.thrown ∧
        (Java_org_libgit2_jagged_core_NativeMethods_treeGetEntryCount env repo_java tree_java
          w).1 = (c : Int)) := by
  have h1 := hres w
  rcases h : git_java_object_native env repo_java tree_java GIT_OBJ_TREE w with ⟨o, w1⟩
  rw [h] at h1
  simp only at h1
  subst h1
  have hw := git_java_object_native_some _ _ _ _ h
  subst hw
  unfold Java_org_libgit2_jagged_core_NativeMethods_treeGetEntryCount
  simp only [h, hc, Nat.mod_eq_of_lt hword]
  have hmax : 2 ^ 63 - 1 = INT64_MAX := rfl
  rw [hmax]
  by_cases hlt : c > INT64_MAX
  · simp [hlt, git_java_exception_throw, World.thrownSince]
  · have hle : c ≤ INT64_MAX := by omega
    simp [hlt, hle, git_java_exception_throw, World.thrownSince, to_jlong_of_le c hle]

/-- Witness of C7 on the sample tree 200, which has three entries. -/
theorem treeGetEntryCount_overflow_witness :
    (JThrowable.message "Too many tree entries" none ∈
        World.start.thrownSince (Java_org_libgit2_jagged_core_NativeMethods_treeGetEntryCount
          sampleEnv (.ref 1) (.ref 200) World.start).2 ↔ 3 > 2 ^ 63 - 1) ∧
    (3 > 2 ^ 63 - 1 →
      (Java_org_libgit2_jagged_core_NativeMethods_treeGetEntryCount sampleEnv (.ref 1)
          (.ref 200) World.start).2.thrown =
        World.start.thrown ++ [.message "Too many tree entries" none]) ∧
    (3 ≤ 2 ^ 63 - 1 →
      (Java_org_libgit2_jagged_core_NativeMethods_treeGetEntryCount sampleEnv (.ref 1)
          (.ref 200) World.start).2.thrown = World.start.thrown ∧
        (Java_org_libgit2_jagged_core_NativeMethods_treeGetEntryCount sampleEnv (.ref 1)
          (.ref 200) World.start).1 = ((3 : Nat) : Int)) :=
  treeGetEntryCount_overflow sampleEnv (.ref 1) (.ref 200) (sampleObject 200 GIT_OBJ_TREE) 3
    (fun _ => rfl) rfl (by norm_num [SIZE_RANGE]) World.start

/-! ## The wrapper factory -/

theorem object_classname_eq_some (type : Int) (cls : String)
    (h : object_classname type = some cls) :
    (type = GIT_OBJ_COMMIT ∧ cls = GIT_JAVA_CLASS_COMMIT) ∨
      (type = GIT_OBJ_TREE ∧ cls = GIT_JAVA_CLASS_TREE) := by
  unfold object_classname at h
  split at h
  · left; simp_all
  · split at h
    · right; simp_all
    · simp at h

theorem NewObject_fst_some (env : Env) (c : jclass) (m : jmethodID) (args : List jobject)
    (w : World) (j : jobject) (h : (NewObject env c m args w).1 = some j) :
    j = .object c args := by
  rcases hn : NewObject env c m args w with ⟨r, w1⟩
  rw [hn] at h
  simp only at h
  subst h
  simp at hn
  exact hn.2.1

theorem git_java_object_init_some (env : Env) (repo_java oid_java : jobject)
    (object : git_object) (w : World) (j : jobject)
    (h : (git_java_object_init env repo_java oid_java object w).1 = some j) :
    (git_object_type object = GIT_OBJ_COMMIT ∧
        j = .object GIT_JAVA_CLASS_COMMIT [repo_java, oid_java]) ∨
      (git_object_type object = GIT_OBJ_TREE ∧
        j = .object GIT_JAVA_CLASS_TREE [repo_java, oid_java]) := by
  unfold git_java_object_init at h
  simp only at h
  repeat' split at h
  all_goals simp_all
  have hj := NewObject_fst_some _ _ _ _ _ _ h
  rcases object_classname_eq_some _ _ ‹object_classname _ = _› with ⟨h3, rfl⟩ | ⟨h3, rfl⟩
  · exact Or.inl ⟨h3, hj⟩
  · exact Or.inr ⟨h3, hj⟩

/-- C6: the wrapper factory chooses the class from the actual type of the
resolved object only.  Whatever the collaborators do, a wrapper it returns is a
Commit wrapper and the type is commit, or a Tree wrapper and the type is tree;
when class lookup, constructor lookup and construction succeed, a commit gets a
Commit wrapper and a tree a Tree wrapper; for every other type it returns no
wrapper, signals the unknown-object-type exception and requests no
construction; a tree never gets a Commit wrapper.  In objectLookup the wrapper
returned is the one for the actual type of the object the store yielded,
whatever type was requested. -/
theorem wrapper_class_follows_actual_type (env : Env) (repo_java oid_java : jobject)
    (object : git_object) (w : World) :
    (∀ j, (git_java_object_init env repo_java oid_java object w).1 = some j →
      (git_object_type object = GIT_OBJ_COMMIT ∧
          j = .object GIT_JAVA_CLASS_COMMIT [repo_java, oid_java]) ∨
        (git_object_type object = GIT_OBJ_TREE ∧
          j = .object GIT_JAVA_CLASS_TREE [repo_java, oid_java])) ∧
    (∀ cls, (git_object_type object = GIT_OBJ_COMMIT ∧ cls = GIT_JAVA_CLASS_COMMIT) ∨
        (git_object_type object = GIT_OBJ_TREE ∧ cls = GIT_JAVA_CLASS_TREE) →
      (∀ t, env.FindClass t cls = .ok ()) →
      (∀ t, env.GetMethodID t cls "<init>"
        "(Lorg/libgit2/jagged/Repository;Lorg/libgit2/jagged/ObjectId;)V" = .ok ()) →
      (∀ t m, env.NewObject t cls m [repo_java, oid_java] = .ok ()) →
      (git_java_object_init env repo_java oid_java object w).1 =
        some (.object cls [repo_java, oid_java])) ∧
    (git_object_type object ≠ GIT_OBJ_COMMIT → git_object_type object ≠ GIT_OBJ_TREE →
      (git_java_object_init env repo_java oid_java object w).1 = none ∧
        (git_java_object_init env repo_java oid_java object w).2.thrown =
          w.thrown ++ [.message "unknown object type: %d" (some (git_object_type object))] ∧
        (git_java_object_init env repo_java oid_java object w).2.constructions =
          w.constructions) ∧
    (git_object_type object = GIT_OBJ_TREE → ∀ args,
      (git_java_object_init env repo_java oid_java object w).1 ≠
        some (.object GIT_JAVA_CLASS_COMMIT args)) ∧
    (∀ type j, (Java_org_libgit2_jagged_core_NativeMethods_objectLookup env repo_java oid_java
        type w).1 = some j →
      ∃ t repo oid found, env.git_object_lookup t repo oid type = .ok found ∧
        ((git_object_type found = GIT_OBJ_COMMIT ∧
            j = .object GIT_JAVA_CLASS_COMMIT [repo_java, oid_java]) ∨
          (git_object_type found = GIT_OBJ_TREE ∧
            j = .object GIT_JAVA_CLASS_TREE [repo_java, oid_java]))) := by
  refine ⟨fun j h => git_java_object_init_some env repo_java oid_java object w j h, ?_, ?_, ?_, ?_⟩
  · intro cls hcls hf hm hn
    have hname : object_classname (git_object_type object) = some cls := by
      rcases hcls with ⟨h, rfl⟩ | ⟨h, rfl⟩
      · simp [object_classname, h]
      · simp [object_classname, h, GIT_OBJ_TREE, GIT_OBJ_COMMIT]
    simp [git_java_object_init, hname, FindClass, GetMethodID, NewObject, ask, hf, hm, hn]
  · intro h1 h2
    simp [git_java_object_init, object_classname, h1, h2, git_java_exception_throw]
  · intro h args hj
    rcases git_java_object_init_some env repo_java oid_java object w _ hj with ⟨h1, _⟩ | ⟨_, h2⟩
    · rw [h] at h1; simp [GIT_OBJ_TREE, GIT_OBJ_COMMIT] at h1
    · simp [GIT_JAVA_CLASS_COMMIT, GIT_JAVA_CLASS_TREE] at h2
  · intro type j h
    unfold Java_org_libgit2_jagged_core_NativeMethods_objectLookup at h
    repeat' split at h
    all_goals try (simp at h; done)
    simp only [init_eq, acquire_eq_ok] at *
    obtain ⟨hl, -⟩ := ‹env.git_object_lookup _ _ _ _ = _ ∧ _›
    obtain ⟨hi, -⟩ := ‹(git_java_object_init _ _ _ _ _).1 = _ ∧ _›
    exact ⟨_, _, _, _, hl, git_java_object_init_some _ _ _ _ _ _ (hi.trans h)⟩

/-- Witness of C6: in the sample store the factory wraps the tree 200 as a
Tree, also inside an objectLookup that asks for any type the store accepts. -/
theorem wrapper_class_follows_actual_type_witness :
    (git_java_object_init sampleEnv (.ref 1) (.objectId 200) (sampleObject 200 GIT_OBJ_TREE)
        World.start).1 = some (.object GIT_JAVA_CLASS_TREE [.ref 1, .objectId 200]) ∧
    ∀ args, (git_java_object_init sampleEnv (.ref 1) (.objectId 200)
        (sampleObject 200 GIT_OBJ_TREE) World.start).1 ≠
      some (.object GIT_JAVA_CLASS_COMMIT args) :=
  ⟨(wrapper_class_follows_actual_type sampleEnv (.ref 1) (.objectId 200)
      (sampleObject 200 GIT_OBJ_TREE) World.start).2.1 GIT_JAVA_CLASS_TREE
      (Or.inr ⟨rfl, rfl⟩) (fun _ => rfl) (fun _ => rfl) (fun _ _ => rfl),
   (wrapper_class_follows_actual_type sampleEnv (.ref 1) (.objectId 200)
      (sampleObject 200 GIT_OBJ_TREE) World.start).2.2.2.1 rfl⟩

/-! ## Commit metadata -/

/-- C8: for a commit that resolves when the call reaches the resolver (after
the four class and constructor lookups, at tick `w.tick + 4`), the four
signature texts are converted in the order committer name, committer email,
author name, author email, at the ticks `w.tick + 10` to `w.tick + 13` of this
call.  (1) If any one of these four conversions fails at its turn,
commitGetMetadata returns null and requests no construction at all, so no
CommitMetadata is built; this holds whatever the same text did at an earlier
turn.  (2) If the lookups, the four conversions and the three constructions of
this call succeed, the result is CommitMetadata(Signature(committer name,
committer email), Signature(author name, author email)). -/
theorem commitGetMetadata_all_or_nothing (env : Env) (repo_java commit_java : jobject)
    (commit : git_object) (w : World)
    (hres : (git_java_object_native env repo_java commit_java GIT_OBJ_COMMIT
      w.step.step.step.step).1 = some commit) :
    ((∃ e, env.git_java_utf8_to_jstring (w.tick + 10)
          (env.git_commit_committer commit).name = .fail e) ∨
      (∃ e, env.git_java_utf8_to_jstring (w.tick + 11)
          (env.git_commit_committer commit).email = .fail e) ∨
      (∃ e, env.git_java_utf8_to_jstring (w.tick + 12)
          (env.git_commit_author commit).name = .fail e) ∨
      (∃ e, env.git_java_utf8_to_jstring (w.tick + 13)
          (env.git_commit_author commit).email = .fail e) →
      (Java_org_libgit2_jagged_core_NativeMethods_commitGetMetadata env repo_java commit_java
          w).1 = none ∧
        (Java_org_libgit2_jagged_core_NativeMethods_commitGetMetadata env repo_java commit_java
          w).2.constructions = w.constructions) ∧
    (env.FindClass w.tick "org/libgit2/jagged/Signature" = .ok () →
      env.GetMethodID (w.tick + 1) "org/libgit2/jagged/Signature" "<init>"
        "(Ljava/lang/String;Ljava/lang/String;)V" = .ok () →
      env.FindClass (w.tick + 2) "org/libgit2/jagged/core/CommitMetadata" = .ok () →
      env.GetMethodID (w.tick + 3) "org/libgit2/jagged/core/CommitMetadata" "<init>"
        "(Lorg/libgit2/jagged/Signature;Lorg/libgit2/jagged/Signature;)V" = .ok () →
      env.git_java_utf8_to_jstring (w.tick + 10) (env.git_commit_committer commit).name =
        .ok () →
      env.git_java_utf8_to_jstring (w.tick + 11) (env.git_commit_committer commit).email =
        .ok () →
      env.git_java_utf8_to_jstring (w.tick + 12) (env.git_commit_author commit).name =
        .ok () →
      env.git_java_utf8_to_jstring (w.tick + 13) (env.git_commit_author commit).email =
        .ok () →
      (∀ m args, env.NewObject (w.tick + 14) "org/libgit2/jagged/Signature" m args = .ok ()) →
      (∀ m args, env.NewObject (w.tick + 15) "org/libgit2/jagged/Signature" m args = .ok ()) →
      (∀ m args, env.NewObject (w.tick + 16) "org/libgit2/jagged/core/CommitMetadata" m args =
        .ok ()) →
      (Java_org_libgit2_jagged_core_NativeMethods_commitGetMetadata env repo_java commit_java
          w).1 =
        some (.object "org/libgit2/jagged/core/CommitMetadata"
          [.object "org/libgit2/jagged/Signature"
              [.string (env.git_commit_committer commit).name,
               .string (env.git_commit_committer commit).email],
           .object "org/libgit2/jagged/Signature"
              [.string (env.git_commit_author commit).name,
               .string (env.git_commit_author commit).email]])) := by
  have e10 : w.tick + 10 = w.tick + 1 + 1 + 1 + 1 + 6 := by omega
  have e11 : w.tick + 11 = w.tick + 1 + 1 + 1 + 1 + 6 + 1 := by omega
  have e12 : w.tick + 12 = w.tick + 1 + 1 + 1 + 1 + 6 + 1 + 1 := by omega
  have e13 : w.tick + 13 = w.tick + 1 + 1 + 1 + 1 + 6 + 1 + 1 + 1 := by omega
  constructor
  · intro hfail
    rw [e10, e11, e12, e13] at hfail
    unfold Java_org_libgit2_jagged_core_NativeMethods_commitGetMetadata
    repeat' split
    all_goals simp_all [NewObject_eq]
    repeat' split
    all_goals simp_all [NewObject_eq]
  · intro h1 h2 h3 h4 h5 h6 h7 h8 h9 h10 h11
    rcases h : git_java_object_native env repo_java commit_java GIT_OBJ_COMMIT
      (w.step.step.step.step) with ⟨o, w1⟩
    rw [h] at hres
    simp only at hres
    subst hres
    have hw := git_java_object_native_some _ _ _ _ h
    subst hw
    have e2 : w.tick + 2 = w.tick + 1 + 1 := by omega
    have e3 : w.tick + 3 = w.tick + 1 + 1 + 1 := by omega
    have e14 : w.tick + 14 = w.tick + 1 + 1 + 1 + 1 + 6 + 1 + 1 + 1 + 1 := by omega
    have e15 : w.tick + 15 = w.tick + 1 + 1 + 1 + 1 + 6 + 1 + 1 + 1 + 1 + 1 := by omega
    have e16 : w.tick + 16 = w.tick + 1 + 1 + 1 + 1 + 6 + 1 + 1 + 1 + 1 + 1 + 1 := by omega
    rw [e2] at h3
    rw [e3] at h4
    rw [e10] at h5
    rw [e11] at h6
    rw [e12] at h7
    rw [e13] at h8
    rw [e14] at h9
    rw [e15] at h10
    rw [e16] at h11
    simp [Java_org_libgit2_jagged_core_NativeMethods_commitGetMetadata, FindClass, GetMethodID,
      ask, h1, h2, h3, h4, h5, h6, h7, h8, h9, h10, h11, h, git_java_utf8_to_jstring, NewObject]

/-- Witness of C8: on the sample commit 100 the metadata is built in the order
committer, author; when author and committer are the same person and only the
fourth conversion (the author email) fails, after the same text converted for
the committer, the result is null and nothing is constructed. -/
theorem commitGetMetadata_all_or_nothing_witness :
    (Java_org_libgit2_jagged_core_NativeMethods_commitGetMetadata sampleEnv (.ref 1) (.ref 100)
        World.start).1 =
      some (.object "org/libgit2/jagged/core/CommitMetadata"
        [.object "org/libgit2/jagged/Signature" [.string "C", .string "c@x"],
         .object "org/libgit2/jagged/Signature" [.string "A", .string "a@x"]]) ∧
    ((Java_org_libgit2_jagged_core_NativeMethods_commitGetMetadata authorEmailFailsLate (.ref 1)
        (.ref 100) World.start).1 = none ∧
      (Java_org_libgit2_jagged_core_NativeMethods_commitGetMetadata authorEmailFailsLate (.ref 1)
        (.ref 100) World.start).2.constructions = World.start.constructions) :=
  ⟨(commitGetMetadata_all_or_nothing sampleEnv (.ref 1) (.ref 100)
      (sampleObject 100 GIT_OBJ_COMMIT) World.start rfl).2
      rfl rfl rfl rfl rfl rfl rfl rfl (fun _ _ => rfl) (fun _ _ => rfl) (fun _ _ => rfl),
   (commitGetMetadata_all_or_nothing authorEmailFailsLate (.ref 1) (.ref 100)
      (sampleObject 100 GIT_OBJ_COMMIT) World.start rfl).1
      (Or.inr (Or.inr (Or.inr ⟨some (.collaborator 3), rfl⟩)))⟩

/-! ## Tree entries -/

theorem to_size_t_natCast (i : Nat) (h : i < 2 ^ 63) : to_size_t (i : Int) = i := by
  unfold to_size_t
  rw [SIZE_RANGE_eq]
  have : ((i : Int) % ((18446744073709551616 : Nat) : Int)) = (i : Int) := by
    apply Int.emod_eq_of_lt <;> omega
  rw [this]
  simp

/-- C2: for a tree that resolves and whose entries, as the store indexes them,
are `es` (so `n = es.length`), with the class and constructor lookups, the text
and identifier conversions and the construction succeeding, and for an index
`i` of `jlong` range with `i >= 0`: if the store has the entry `e` at `i` (that
is, `i < n`) the call returns a TreeEntry built from the name, identifier, type
tag and file mode of `e` and signals nothing; if `i >= n` (the boundary `i = n`
included) it returns null and signals exactly the entry-not-found exception. -/
theorem treeGetEntry_by_index (env : Env) (repo_java tree_java : jobject) (tree : git_object)
    (es : List git_tree_entry) (i : Nat)
    (hcls : ∀ t, env.FindClass t "org/libgit2/jagged/TreeEntry" = .ok ())
    (hmeth : ∀ t, env.GetMethodID t "org/libgit2/jagged/TreeEntry" "<init>"
      "(Ljava/lang/String;Lorg/libgit2/jagged/ObjectId;II)V" = .ok ())
    (hres : ∀ w, (git_java_object_native env repo_java tree_java GIT_OBJ_TREE w).1 = some tree)
    (hes : ∀ k, env.git_tree_entry_byindex tree k = es[k]?)
    (hname : ∀ t, ∀ e ∈ es, env.git_java_utf8_to_jstring t e.name = .ok ())
    (hoid : ∀ t, ∀ e ∈ es, env.git_java_objectid_init t e.id = .ok ())
    (hnew : ∀ t m args, env.NewObject t "org/libgit2/jagged/TreeEntry" m args = .ok ())
    (hi : i < 2 ^ 63) (w : World) :
    (∀ e, es[i]? = some e →
      ∃ w1, Java_org_libgit2_jagged_core_NativeMethods_treeGetEntry env repo_java tree_java
          (i : Int) w =
          some (some (.object "org/libgit2/jagged/TreeEntry"
            [.string e.name, .objectId e.id, .jint e.type, .jint e.filemode]), w1) ∧
        w1.thrown = w.thrown) ∧
    (es.length ≤ i →
      ∃ w1, Java_org_libgit2_jagged_core_NativeMethods_treeGetEntry env repo_java tree_java
          (i : Int) w = some (none, w1) ∧
        w1.thrown = w.thrown ++ [.message "Could not locate tree entry %d" (some (i : Int))]) := by
  have hr := hres (w.step.step)
  rcases h : git_java_object_native env repo_java tree_java GIT_OBJ_TREE (w.step.step)
    with ⟨o, w1⟩
  rw [h] at hr
  simp only at hr
  subst hr
  have hw := git_java_object_native_some _ _ _ _ h
  subst hw
  have hneg : ¬ ((i : Int) < 0) := by omega
  constructor
  · intro e he
    have hmem : e ∈ es := List.getElem?_mem he
    simp [Java_org_libgit2_jagged_core_NativeMethods_treeGetEntry, hneg, FindClass, GetMethodID,
      ask, hcls, hmeth, h, to_size_t_natCast i hi, hes, he, git_java_utf8_to_jstring,
      git_java_objectid_init, NewObject, hname _ e hmem, hoid _ e hmem, hnew]
  · intro hle
    have hnone : es[i]? = none := List.getElem?_eq_none hle
    simp [Java_org_libgit2_jagged_core_NativeMethods_treeGetEntry, hneg, FindClass, GetMethodID,
      ask, hcls, hmeth, h, to_size_t_natCast i hi, hes, hnone, git_java_exception_throw]

/-- Witness of C2 on the sample tree 200 with its three entries: index 2 yields
the third entry, index 3 (one past the end) yields entry-not-found. -/
theorem treeGetEntry_by_index_witness :
    (∃ w1, Java_org_libgit2_jagged_core_NativeMethods_treeGetEntry sampleEnv (.ref 1) (.ref 200)
        ((2 : Nat) : Int) World.start =
        some (some (.object "org/libgit2/jagged/TreeEntry"
          [.string "sub", .objectId 201, .jint 2, .jint 16384]), w1) ∧
      w1.thrown = World.start.thrown) ∧
    (∃ w1, Java_org_libgit2_jagged_core_NativeMethods_treeGetEntry sampleEnv (.ref 1) (.ref 200)
        ((3 : Nat) : Int) World.start = some (none, w1) ∧
      w1.thrown = World.start.thrown ++
        [.message "Could not locate tree entry %d" (some ((3 : Nat) : Int))]) :=
  ⟨(treeGetEntry_by_index sampleEnv (.ref 1) (.ref 200) (sampleObject 200 GIT_OBJ_TREE)
      sampleEntries 2 (fun _ => rfl) (fun _ => rfl) (fun _ => rfl) (fun _ => rfl)
      (fun _ _ _ => rfl) (fun _ _ _ => rfl) (fun _ _ _ => rfl) (by norm_num) World.start).1
      { name := "sub", id := 201, type := 2, filemode := 16384 } rfl,
   (treeGetEntry_by_index sampleEnv (.ref 1) (.ref 200) (sampleObject 200 GIT_OBJ_TREE)
      sampleEntries 3 (fun _ => rfl) (fun _ => rfl) (fun _ => rfl) (fun _ => rfl)
      (fun _ _ _ => rfl) (fun _ _ _ => rfl) (fun _ _ _ => rfl) (by norm_num) World.start).2
      (by decide)⟩

/-! ## Parents of a commit -/

theorem fill_slot {α β : Type} (f : α → β) (l : List α) (i fuel : Nat) (P : α)
    (h : l[i]? = some P) :
    ((l.take i).map (fun x => some (f x)) ++ List.replicate (fuel + 1) none).set i (some (f P)) =
      (l.take (i + 1)).map (fun x => some (f x)) ++ List.replicate fuel none := by
  have hi : i < l.length := by
    rcases Nat.lt_or_ge i l.length with h1 | h1
    · exact h1
    · rw [List.getElem?_eq_none h1] at h; cases h
  have hlen : ((l.take i).map (fun x => some (f x))).length = i := by
    simp [List.length_take, Nat.min_eq_left (Nat.le_of_lt hi)]
  rw [List.set_append_right _ _ (by rw [hlen])]
  rw [hlen, Nat.sub_self, List.replicate_succ, List.set_cons_zero, List.take_succ, h]
  simp

/-- The bound on the iterations is never what ends the loop: once it covers the
iterations left (`parents_len - i`), a larger bound gives the same result. -/
theorem commitGetParents_loop_bound (env : Env) (repo_java : jobject) (commit : git_object)
    (parents_len : Nat) :
    ∀ (fuel i : Nat) (parent : Option git_object) (arr : jobjectArray) (w : World),
      parents_len ≤ i + fuel →
      commitGetParents_loop env repo_java commit parents_len (fuel + 1) i parent arr w =
        commitGetParents_loop env repo_java commit parents_len fuel i parent arr w := by
  intro fuel
  induction fuel with
  | zero =>
    intro i parent arr w h
    have hn : ¬ i < parents_len := by omega
    simp [commitGetParents_loop, hn]
  | succ fuel ih =>
    intro i parent arr w h
    rw [commitGetParents_loop]
    conv_rhs => rw [commitGetParents_loop]
    split
    · repeat' split
      all_goals first
        | rfl
        | exact ih _ _ _ _ (by omega)
    · rfl

theorem commitGetParents_loop_fills (env : Env) (repo_java : jobject) (commit : git_object)
    (Ps : List git_object)
    (hpar : ∀ t i P, Ps[i]? = some P → env.git_commit_parent t commit i = .ok P)
    (htype : ∀ P ∈ Ps, git_object_type P = GIT_OBJ_COMMIT)
    (hoid : ∀ t, ∀ P ∈ Ps, env.git_java_objectid_init t (git_commit_id P) = .ok ())
    (hcls : ∀ t, env.FindClass t GIT_JAVA_CLASS_COMMIT = .ok ())
    (hmeth : ∀ t, env.GetMethodID t GIT_JAVA_CLASS_COMMIT "<init>"
      "(Lorg/libgit2/jagged/Repository;Lorg/libgit2/jagged/ObjectId;)V" = .ok ())
    (hnew : ∀ t m args, env.NewObject t GIT_JAVA_CLASS_COMMIT m args = .ok ()) :
    ∀ (fuel i : Nat) (parent : Option git_object) (elems : List (Option jobject)) (w : World),
      i + fuel = Ps.length →
      elems = (Ps.take i).map (fun P => some (commitRef repo_java P)) ++
        List.replicate fuel none →
      (commitGetParents_loop env repo_java commit Ps.length fuel i parent
          { cls := GIT_JAVA_CLASS_COMMIT, elems := elems } w).1 =
        { cls := GIT_JAVA_CLASS_COMMIT,
          elems := Ps.map (fun P => some (commitRef repo_java P)) } ∧
      (commitGetParents_loop env repo_java commit Ps.length fuel i parent
          { cls := GIT_JAVA_CLASS_COMMIT, elems := elems } w).2.thrown = w.thrown := by
  intro fuel
  induction fuel with
  | zero =>
    intro i parent elems w hi he
    have : i = Ps.length := by omega
    subst this
    simp [commitGetParents_loop, he]
  | succ fuel ih =>
    intro i parent elems w hi he
    have hlt : i < Ps.length := by omega
    obtain ⟨P, hP⟩ : ∃ P, Ps[i]? = some P := ⟨Ps[i], List.getElem?_eq_getElem hlt⟩
    have hmem : P ∈ Ps := List.getElem?_mem hP
    have hlen : i < elems.length := by
      rw [he]; simp [List.length_take]; omega
    have hty := htype P hmem
    have hname : object_classname (git_object_type P) = some GIT_JAVA_CLASS_COMMIT := by
      simp [object_classname, hty]
    have hfill := fill_slot (commitRef repo_java) Ps i fuel P hP
    rw [← he] at hfill
    simp [commitGetParents_loop, hlt, hpar _ i P hP, acquire,
      git_java_objectid_init, ask, hoid _ P hmem, git_java_object_init, hname, FindClass, hcls,
      GetMethodID, hmeth, NewObject, hnew, SetObjectArrayElement, hlen]
    refine ⟨(ih _ _ _ _ (by omega) hfill).1, ?_⟩
    rw [(ih _ _ _ _ (by omega) hfill).2]
    simp

/-- C1: for a commit that resolves and whose parents, as the store yields them
in index order, are `Ps = [P0, ..., P(n-1)]` (all of them commits, as the store
interface promises), when the class lookups, the allocation of the array, the
identifier copies and the wrapping succeed, commitGetParents returns an array
of length exactly `n` whose slot `i` holds the Commit ref carrying the
identifier of `Pi`, in store order, and signals nothing. -/
theorem commitGetParents_in_store_order (env : Env) (repo_java commit_java : jobject)
    (commit : git_object) (Ps : List git_object)
    (hres : ∀ w,
      (git_java_object_native env repo_java commit_java GIT_OBJ_COMMIT w).1 = some commit)
    (hcount : env.git_commit_parentcount commit = Ps.length)
    (hjsize : Ps.length < 2 ^ 31)
    (hpar : ∀ t i P, Ps[i]? = some P → env.git_commit_parent t commit i = .ok P)
    (htype : ∀ P ∈ Ps, git_object_type P = GIT_OBJ_COMMIT)
    (hoid : ∀ t, ∀ P ∈ Ps, env.git_java_objectid_init t (git_commit_id P) = .ok ())
    (hcls : ∀ t, env.FindClass t GIT_JAVA_CLASS_COMMIT = .ok ())
    (hmeth : ∀ t, env.GetMethodID t GIT_JAVA_CLASS_COMMIT "<init>"
      "(Lorg/libgit2/jagged/Repository;Lorg/libgit2/jagged/ObjectId;)V" = .ok ())
    (hnew : ∀ t m args, env.NewObject t GIT_JAVA_CLASS_COMMIT m args = .ok ())
    (harr : ∀ t, env.NewObjectArray t Ps.length GIT_JAVA_CLASS_COMMIT = .ok ())
    (w : World) :
    (Java_org_libgit2_jagged_core_NativeMethods_commitGetParents env repo_java commit_java
        w).1 =
      some { cls := GIT_JAVA_CLASS_COMMIT,
             elems := Ps.map (fun P => some (commitRef repo_java P)) } ∧
    (∀ a, (Java_org_libgit2_jagged_core_NativeMethods_commitGetParents env repo_java
        commit_java w).1 = some a →
      a.elems.length = Ps.length ∧
        ∀ (i : Nat) (P : git_object), Ps[i]? = some P → a.elems[i]? = some (some (commitRef repo_java P))) ∧
    (Java_org_libgit2_jagged_core_NativeMethods_commitGetParents env repo_java commit_java
        w).2.thrown = w.thrown := by
  have hr := hres w
  rcases h : git_java_object_native env repo_java commit_java GIT_OBJ_COMMIT w with ⟨o, w1⟩
  rw [h] at hr
  simp only at hr
  subst hr
  have hw := git_java_object_native_some _ _ _ _ h
  subst hw
  have hlen32 : Ps.length % UINT_RANGE = Ps.length :=
    Nat.mod_eq_of_lt (by unfold UINT_RANGE; omega)
  have hsize : to_jsize (Ps.length) = (Ps.length : Int) := by
    unfold to_jsize
    rw [hlen32, if_pos hjsize]
  have hloop := commitGetParents_loop_fills env repo_java commit Ps hpar htype hoid hcls hmeth
    hnew Ps.length 0 none (List.replicate Ps.length none)
  have hmain :
      (Java_org_libgit2_jagged_core_NativeMethods_commitGetParents env repo_java commit_java
          w).1 =
        some { cls := GIT_JAVA_CLASS_COMMIT,
               elems := Ps.map (fun P => some (commitRef repo_java P)) } ∧
      (Java_org_libgit2_jagged_core_NativeMethods_commitGetParents env repo_java commit_java
          w).2.thrown = w.thrown := by
    have hnn : ¬ ((Ps.length : Int) < 0) := by omega
    simp [Java_org_libgit2_jagged_core_NativeMethods_commitGetParents, h, FindClass, ask, hcls,
      hcount, hlen32, hsize, NewObjectArray, harr, hnn]
    refine ⟨(hloop _ (by simp) (by simp)).1, ?_⟩
    rw [(hloop _ (by simp) (by simp)).2]
    simp
  refine ⟨hmain.1, ?_, hmain.2⟩
  intro a ha
  rw [hmain.1] at ha
  simp only [Option.some.injEq] at ha
  subst ha
  refine ⟨by simp, ?_⟩
  intro i P hP
  simp [hP]

/-- Witness of C1 on the sample commit 100 with the parents 101 and 102. -/
theorem commitGetParents_in_store_order_witness :
    (Java_org_libgit2_jagged_core_NativeMethods_commitGetParents sampleEnv (.ref 1) (.ref 100)
        World.start).1 =
      some { cls := GIT_JAVA_CLASS_COMMIT,
             elems := [some (.object GIT_JAVA_CLASS_COMMIT [.ref 1, .objectId 101]),
                       some (.object GIT_JAVA_CLASS_COMMIT [.ref 1, .objectId 102])] } :=
  (commitGetParents_in_store_order sampleEnv (.ref 1) (.ref 100)
    (sampleObject 100 GIT_OBJ_COMMIT)
    [sampleObject 101 GIT_OBJ_COMMIT, sampleObject 102 GIT_OBJ_COMMIT]
    (fun _ => rfl) rfl (by norm_num)
    (by
      intro t i P h
      match i, h with
      | 0, h => cases h; rfl
      | 1, h => cases h; rfl
      | n + 2, h => simp at h)
    (by intro P hP; simp at hP; rcases hP with rfl | rfl <;> rfl)
    (fun _ _ _ => rfl) (fun _ => rfl) (fun _ => rfl) (fun _ _ _ => rfl) (fun _ => rfl)
    World.start).1

/-! ## Resource balance of `commitGetParents` apart from the stale handle -/

theorem Balanced.trans {a b c : World} (h1 : a.Balanced b) (h2 : b.Balanced c) :
    a.Balanced c := by
  obtain ⟨⟨x, hx⟩, ⟨y, hy⟩, p1, l1⟩ := h1
  obtain ⟨⟨x', hx'⟩, ⟨y', hy'⟩, p2, l2⟩ := h2
  have hca : c.acquired = a.acquired ++ (x ++ x') := by rw [← hx', ← hx, List.append_assoc]
  have hcr : c.released = a.released ++ (y ++ y') := by rw [← hy', ← hy, List.append_assoc]
  simp only [World.releasedSince, World.acquiredSince, ← hx, ← hy, ← hx', ← hy',
    List.drop_left] at p1 p2 l1 l2
  refine ⟨⟨x ++ x', hca.symm⟩, ⟨y ++ y', hcr.symm⟩, ?_, ?_⟩
  · simp only [World.releasedSince, World.acquiredSince, hca, hcr, List.drop_left]
    exact p1.append p2
  · simp only [World.releasedSince, World.acquiredSince, hca, hcr, List.drop_left,
      List.length_append, l1, l2]

theorem init_eq_none' (env : Env) (w w1 : World) (repo_java oid_java : jobject)
    (o : git_object) :
    git_java_object_init env repo_java oid_java o w = (none, w1) ↔
      (git_java_object_init env repo_java oid_java o w).1 = none ∧
        w1 = (git_java_object_init env repo_java oid_java o w).2 := by
  simp

theorem SetObjectArrayElement_eq (a a1 : jobjectArray) (i : Nat) (v : jobject)
    (w w1 : World) :
    SetObjectArrayElement a i v w = (a1, w1) ↔
      (SetObjectArrayElement a i v w).1 = a1 ∧ w1 = (SetObjectArrayElement a i v w).2 := by
  constructor
  · intro h; rw [h]; exact ⟨rfl, rfl⟩
  · rintro ⟨rfl, rfl⟩; rfl

theorem SetObjectArrayElement_acquired (a : jobjectArray) (i : Nat) (v : jobject) (w : World) :
    (SetObjectArrayElement a i v w).2.acquired = w.acquired := by
  unfold SetObjectArrayElement; split <;> simp

theorem SetObjectArrayElement_released (a : jobjectArray) (i : Nat) (v : jobject) (w : World) :
    (SetObjectArrayElement a i v w).2.released = w.released := by
  unfold SetObjectArrayElement; split <;> simp

/-- Apart from the stale handle, the loop of commitGetParents keeps the balance:
if the store never fails to resolve a parent of index 1 or more, the loop
releases exactly what it acquires, whatever else fails. -/
theorem commitGetParents_loop_balanced (env : Env) (repo_java : jobject) (commit : git_object)
    (parents_len : Nat)
    (hok : ∀ t i, 1 ≤ i → ∃ P, env.git_commit_parent t commit i = .ok P) :
    ∀ (fuel i : Nat) (parent : Option git_object) (arr : jobjectArray) (w : World),
      (i = 0 → parent = none) →
      w.Balanced (commitGetParents_loop env repo_java commit parents_len fuel i parent arr w).2 := by
  intro fuel
  induction fuel with
  | zero =>
    intro i parent arr w _
    simp [commitGetParents_loop, World.Balanced, World.releasedSince, World.acquiredSince]
  | succ fuel ih =>
    intro i parent arr w hp
    unfold commitGetParents_loop
    repeat' split
    all_goals try (simp_all [World.Balanced, World.releasedSince, World.acquiredSince,
      git_java_exception_throw_giterr]; done)
    · rename_i herr
      simp only [acquire_eq_error] at herr
      rcases Nat.eq_zero_or_pos i with h0 | h1
      · rw [hp h0, herr.2]
        simp [World.Balanced, World.releasedSince, World.acquiredSince,
          git_java_exception_throw_giterr]
      · obtain ⟨P, hP⟩ := hok w.tick i h1
        rw [hP] at herr
        exact absurd herr.1 (by simp)
    · refine Balanced.trans ?_ (ih (i + 1) _ _ _ (by simp))
      simp_all [World.Balanced, World.releasedSince, World.acquiredSince,
        SetObjectArrayElement_eq, SetObjectArrayElement_acquired,
        SetObjectArrayElement_released]

theorem NewObjectArray_eq (len : Int) (c : jclass) (env : Env) (w w1 : World)
    (a : Option jobjectArray) :
    NewObjectArray env len c w = (a, w1) ↔
      (NewObjectArray env len c w).1 = a ∧ w1 = (NewObjectArray env len c w).2 := by
  constructor
  · intro h; rw [h]; exact ⟨rfl, rfl⟩
  · rintro ⟨rfl, rfl⟩; rfl

theorem NewObjectArray_acquired (len : Int) (c : jclass) (env : Env) (w : World) :
    (NewObjectArray env len c w).2.acquired = w.acquired := by
  unfold NewObjectArray
  split
  · simp
  · cases env.NewObjectArray w.tick len.toNat c <;> simp [ask]

theorem NewObjectArray_released (len : Int) (c : jclass) (env : Env) (w : World) :
    (NewObjectArray env len c w).2.released = w.released := by
  unfold NewObjectArray
  split
  · simp
  · cases env.NewObjectArray w.tick len.toNat c <;> simp [ask]

theorem balanced_of_append (w w1 : World) (x y : List Nat)
    (ha : w1.acquired = w.acquired ++ x) (hr : w1.released = w.released ++ y)
    (hp : y.Perm x) : w.Balanced w1 := by
  refine ⟨⟨x, ha.symm⟩, ⟨y, hr.symm⟩, ?_, ?_⟩
  · simpa [World.releasedSince, World.acquiredSince, ha, hr] using hp
  · simpa [World.releasedSince, World.acquiredSince, ha, hr] using hp.length_eq

/-- Apart from the stale handle, commitGetParents keeps the balance: if the
store never fails to resolve a parent of index 1 or more, the call releases
exactly what it acquires, whatever else fails. -/
theorem commitGetParents_balanced_of_resolving (env : Env) (repo_java commit_java : jobject)
    (hok : ∀ t c i, 1 ≤ i → ∃ P, env.git_commit_parent t c i = .ok P) (w : World) :
    w.Balanced
      (Java_org_libgit2_jagged_core_NativeMethods_commitGetParents env repo_java commit_java
        w).2 := by
  unfold Java_org_libgit2_jagged_core_NativeMethods_commitGetParents
  rcases hn : git_java_object_native env repo_java commit_java GIT_OBJ_COMMIT w
    with ⟨_ | commit, w1⟩
  · obtain ⟨h1, h2, -, -⟩ := git_java_object_native_none _ _ _ hn
    exact balanced_of_append w _ [] [] (by simpa using h1) (by simpa using h2) (List.Perm.refl _)
  · have hw1 := git_java_object_native_some _ _ _ _ hn
    subst hw1
    simp only []
    rcases hc : FindClass env GIT_JAVA_CLASS_COMMIT
      { w with tick := w.tick + 6, acquired := w.acquired ++ [commit.handle] } with ⟨_ | cls, w2⟩
    · have ha := congrArg (fun p => p.2.acquired) hc
      have hr := congrArg (fun p => p.2.released) hc
      simp only [FindClass_acquired, FindClass_released] at ha hr
      exact balanced_of_append w _ [commit.handle] [commit.handle] (by simp [← ha])
        (by simp [← hr]) (List.Perm.refl _)
    · have ha := congrArg (fun p => p.2.acquired) hc
      have hr := congrArg (fun p => p.2.released) hc
      simp only [FindClass_acquired, FindClass_released] at ha hr
      simp only []
      rcases hna : NewObjectArray env
        (to_jsize (env.git_commit_parentcount commit % UINT_RANGE)) cls w2 with ⟨_ | arr, w3⟩
      · have ha3 := congrArg (fun p => p.2.acquired) hna
        have hr3 := congrArg (fun p => p.2.released) hna
        simp only [NewObjectArray_acquired, NewObjectArray_released] at ha3 hr3
        exact balanced_of_append w _ [commit.handle] [commit.handle] (by simp [← ha3, ← ha])
          (by simp [← hr3, ← hr]) (List.Perm.refl _)
      · have ha3 := congrArg (fun p => p.2.acquired) hna
        have hr3 := congrArg (fun p => p.2.released) hna
        simp only [NewObjectArray_acquired, NewObjectArray_released] at ha3 hr3
        obtain ⟨⟨x, hx⟩, ⟨y, hy⟩, hperm, -⟩ := commitGetParents_loop_balanced env repo_java commit
          (env.git_commit_parentcount commit % UINT_RANGE) (fun t i h => hok t commit i h)
          (env.git_commit_parentcount commit % UINT_RANGE) 0 none arr w3 (fun _ => rfl)
        simp only [World.releasedSince, World.acquiredSince, ← hx, ← hy, List.drop_left]
          at hperm
        refine balanced_of_append w _ (commit.handle :: x) (y ++ [commit.handle]) ?_ ?_ ?_
        · simp [← hx, ← ha3, ← ha]
        · simp [← hy, ← hr3, ← hr]
        · exact (List.perm_append_comm).trans (List.Perm.cons _ hperm)

/-! ## Null results and pending exceptions -/

section fail_thrown
variable {env : Env} {w : World}

theorem ask_fail_thrown {α : Type} (o : Outcome α) (ho : o ≠ .fail none)
    (h : ∃ e, o = .fail e) : (ask o w).2.thrown.length = w.thrown.length + 1 := by
  obtain ⟨e, rfl⟩ := h
  cases e with
  | none => exact absurd rfl ho
  | some x => simp [ask, World.raiseOpt]

theorem handle_get_fail_thrown (hsig : env.signalsFailure) (j : jobject)
    (h : ∃ e, env.git_java_handle_get w.tick j = .fail e) :
    (ask (env.git_java_handle_get w.tick j) w).2.thrown.length = w.thrown.length + 1 :=
  ask_fail_thrown _ (hsig.1 _ _) h

theorem tonative_fail_thrown (hsig : env.signalsFailure) (j : jobject)
    (h : ∃ e, env.git_java_objectid_tonative w.tick j = .fail e) :
    (ask (env.git_java_objectid_tonative w.tick j) w).2.thrown.length = w.thrown.length + 1 :=
  ask_fail_thrown _ (hsig.2.2.2.2.2.2.1 _ _) h

theorem FindClass_fail_thrown (hsig : env.signalsFailure) (n : String)
    (h : ∃ e, env.FindClass w.tick n = .fail e) :
    (FindClass env n w).2.thrown.length = w.thrown.length + 1 := by
  obtain ⟨e, he⟩ := h
  have h2 := hsig.2.1 w.tick n
  cases e with
  | none => exact absurd he h2
  | some x => simp [FindClass, ask, he, World.raiseOpt]

theorem GetMethodID_fail_thrown (hsig : env.signalsFailure) (c : jclass) (n g : String)
    (h : ∃ e, env.GetMethodID w.tick c n g = .fail e) :
    (GetMethodID env c n g w).2.thrown.length = w.thrown.length + 1 := by
  obtain ⟨e, he⟩ := h
  have h2 := hsig.2.2.1 w.tick c n g
  cases e with
  | none => exact absurd he h2
  | some x => simp [GetMethodID, ask, he, World.raiseOpt]

theorem NewObject_fail_thrown (hsig : env.signalsFailure) (c : jclass) (m : jmethodID)
    (args : List jobject) (h : ∃ e, env.NewObject w.tick c m args = .fail e) :
    (NewObject env c m args w).2.thrown.length = w.thrown.length + 1 := by
  obtain ⟨e, he⟩ := h
  have h2 := hsig.2.2.2.2.1 w.tick c m args
  cases e with
  | none => exact absurd he h2
  | some x => simp [NewObject, ask, he, World.raiseOpt]

theorem objectid_init_fail_thrown (hsig : env.signalsFailure) (oid : git_oid)
    (h : ∃ e, env.git_java_objectid_init w.tick oid = .fail e) :
    (git_java_objectid_init env oid w).2.thrown.length = w.thrown.length + 1 := by
  obtain ⟨e, he⟩ := h
  have h2 := hsig.2.2.2.2.2.2.2.1 w.tick oid
  cases e with
  | none => exact absurd he h2
  | some x => simp [git_java_objectid_init, ask, he, World.raiseOpt]

theorem utf8_fail_thrown (hsig : env.signalsFailure) (s : String)
    (h : ∃ e, env.git_java_utf8_to_jstring w.tick s = .fail e) :
    (git_java_utf8_to_jstring env s w).2.thrown.length = w.thrown.length + 1 := by
  obtain ⟨e, he⟩ := h
  have h2 := hsig.2.2.2.2.2.2.2.2 w.tick s
  cases e with
  | none => exact absurd he h2
  | some x => simp [git_java_utf8_to_jstring, ask, he, World.raiseOpt]

theorem NewObject_fst_none (c : jclass) (m : jmethodID) (args : List jobject) :
    (NewObject env c m args w).1 = none ↔ ∃ e, env.NewObject w.tick c m args = .fail e := by
  unfold NewObject
  cases env.NewObject w.tick c m args <;> simp [ask]

theorem NewObject_some_thrown (c : jclass) (m : jmethodID) (args : List jobject) (j : jobject)
    (h : (NewObject env c m args w).1 = some j) :
    (NewObject env c m args w).2.thrown = w.thrown := by
  unfold NewObject at h ⊢
  cases ho : env.NewObject w.tick c m args with
  | ok a => simp [ask]
  | fail e => rw [ho] at h; simp [ask] at h

theorem NewObjectArray_eq_none (len : Int) (c : jclass) (w1 : World) :
    NewObjectArray env len c w = (none, w1) ↔
      (NewObjectArray env len c w).1 = none ∧ w1 = (NewObjectArray env len c w).2 := by
  constructor
  · intro h; rw [h]; exact ⟨rfl, rfl⟩
  · rintro ⟨h1, rfl⟩; exact Prod.ext h1 rfl

theorem NewObjectArray_null_thrown (hsig : env.signalsFailure) (len : Int) (c : jclass)
    (h : (NewObjectArray env len c w).1 = none) :
    (NewObjectArray env len c w).2.thrown.length = w.thrown.length + 1 := by
  have h2 := hsig.2.2.2.2.2.1 w.tick len.toNat c
  unfold NewObjectArray at h ⊢
  split
  · simp
  · rename_i hlen
    rw [if_neg hlen] at h
    cases ho : env.NewObjectArray w.tick len.toNat c with
    | ok a => rw [ho] at h; simp [ask] at h
    | fail e =>
      cases e with
      | none => exact absurd ho h2
      | some x => simp [ask, World.raiseOpt]

theorem git_java_object_init_null_thrown (hsig : env.signalsFailure)
    (repo_java oid_java : jobject) (o : git_object)
    (h : (git_java_object_init env repo_java oid_java o w).1 = none) :
    (git_java_object_init env repo_java oid_java o w).2.thrown.length = w.thrown.length + 1 := by
  unfold git_java_object_init at h ⊢
  simp only at h ⊢
  repeat' split
  all_goals simp_all [FindClass_fail_thrown hsig, GetMethodID_fail_thrown hsig,
    NewObject_fail_thrown hsig, NewObject_fst_none, git_java_exception_throw]

theorem git_java_object_native_null_thrown (hsig : env.signalsFailure)
    (hid : ∀ t o m, env.CallObjectMethod t o m ≠ .ok none)
    (repo_java object_java : jobject) (type : Int)
    (h : (git_java_object_native env repo_java object_java type w).1 = none) :
    (git_java_object_native env repo_java object_java type w).2.thrown.length =
      w.thrown.length + 1 := by
  have h1 := hsig.1
  have h4 := hsig.2.2.2.1
  have h7 := hsig.2.2.2.2.2.2.1
  unfold git_java_object_native at h ⊢
  repeat' split
  all_goals simp_all [FindClass_fail_thrown hsig, GetMethodID_fail_thrown hsig,
    ask_fail_thrown, git_java_exception_throw_giterr]

end fail_thrown

/-- The pending-exception property as far as the code satisfies it: with collaborators that signal
every failure they report and a `getId` accessor that never returns `null`
without raising, each object-returning operation that returns null has
signalled exactly one exception during the call. -/
theorem null_result_signalled (env : Env) (hsig : env.signalsFailure)
    (hid : ∀ t o m, env.CallObjectMethod t o m ≠ .ok none)
    (repo_java obj_java : jobject) (type : Int) (w : World) :
    ((Java_org_libgit2_jagged_core_NativeMethods_objectLookup env repo_java obj_java type
        w).1 = none →
      (Java_org_libgit2_jagged_core_NativeMethods_objectLookup env repo_java obj_java type
        w).2.thrown.length = w.thrown.length + 1) ∧
    ((Java_org_libgit2_jagged_core_NativeMethods_commitGetMetadata env repo_java obj_java
        w).1 = none →
      (Java_org_libgit2_jagged_core_NativeMethods_commitGetMetadata env repo_java obj_java
        w).2.thrown.length = w.thrown.length + 1) ∧
    ((Java_org_libgit2_jagged_core_NativeMethods_commitGetParents env repo_java obj_java
        w).1 = none →
      (Java_org_libgit2_jagged_core_NativeMethods_commitGetParents env repo_java obj_java
        w).2.thrown.length = w.thrown.length + 1) ∧
    ((Java_org_libgit2_jagged_core_NativeMethods_commitGetTree env repo_java obj_java
        w).1 = none →
      (Java_org_libgit2_jagged_core_NativeMethods_commitGetTree env repo_java obj_java
        w).2.thrown.length = w.thrown.length + 1) ∧
    (∀ entry_idx w1, Java_org_libgit2_jagged_core_NativeMethods_treeGetEntry env repo_java
        obj_java entry_idx w = some (none, w1) →
      w1.thrown.length = w.thrown.length + 1) := by
  have h1 := hsig.1
  have h7 := hsig.2.2.2.2.2.2.1
  refine ⟨?_, ?_, ?_, ?_, ?_⟩
  · intro h
    unfold Java_org_libgit2_jagged_core_NativeMethods_objectLookup at h ⊢
    repeat' split
    all_goals simp_all [ask_fail_thrown, git_java_exception_throw_giterr,
      git_java_object_init_null_thrown hsig]
  · intro h
    unfold Java_org_libgit2_jagged_core_NativeMethods_commitGetMetadata at h ⊢
    repeat' split
    all_goals simp_all [FindClass_fail_thrown hsig, GetMethodID_fail_thrown hsig,
      git_java_object_native_null_thrown hsig hid, NewObject_eq]
    repeat' split
    all_goals simp_all [utf8_fail_thrown hsig, NewObject_fail_thrown hsig, NewObject_eq,
      NewObject_fst_none, NewObject_some_thrown]
  · intro h
    unfold Java_org_libgit2_jagged_core_NativeMethods_commitGetParents at h ⊢
    repeat' split
    all_goals simp_all [FindClass_fail_thrown hsig, NewObjectArray_eq_none,
      NewObjectArray_null_thrown hsig, git_java_object_native_null_thrown hsig hid]
    repeat' split
    all_goals simp_all [FindClass_fail_thrown hsig, NewObjectArray_eq_none,
      NewObjectArray_null_thrown hsig, git_java_object_native_null_thrown hsig hid]
  · intro h
    unfold Java_org_libgit2_jagged_core_NativeMethods_commitGetTree at h ⊢
    repeat' split
    all_goals simp_all [FindClass_fail_thrown hsig, objectid_init_fail_thrown hsig,
      git_java_exception_throw_giterr, git_java_object_init_null_thrown hsig,
      git_java_object_native_null_thrown hsig hid]
  · intro entry_idx w1 h
    unfold Java_org_libgit2_jagged_core_NativeMethods_treeGetEntry at h
    split at h
    · simp at h
    · simp only [Option.some.injEq] at h
      have hr := congrArg Prod.fst h
      have hw := congrArg Prod.snd h
      simp only at hr hw
      subst hw
      clear h
      revert hr
      repeat' split
      all_goals simp_all [FindClass_fail_thrown hsig, GetMethodID_fail_thrown hsig,
        utf8_fail_thrown hsig, objectid_init_fail_thrown hsig, NewObject_fail_thrown hsig,
        NewObject_eq, NewObject_fst_none, git_java_exception_throw,
        git_java_object_native_null_thrown hsig hid]

end Jagged
